import Mathlib

/-!
Verification development for the Camera Orchestration and Geodetic Framing
Engine of the Airspace repository. The definitions below are a shallow
embedding of the CameraController component (src/unnamed/part_003): the
geodetic math (latLonToVector3, the tangent-frame construction shared by
getAircraftForwardVector and getAircraftOrientation), the controller state
held in React refs, the four edge-detecting effects in their declaration
order (focus location, restore flag, airport selection, aircraft selection),
and the per-frame animation tick. Floating-point arithmetic is modelled by
exact reals. The React re-render model (all effects observe one consistent
snapshot of the store, and run in declaration order) is modelled by the
function observe, which runs the four effect bodies in order on a polled
snapshot; each effect body is self-gating through its prev-refs, so running
every body on every observation matches the dependency-triggered behaviour.
-/

namespace Airspace

noncomputable section

/-- Three.js Vector3, with exact reals in place of doubles. -/
@[ext] structure Vec3 where
  x : ℝ
  y : ℝ
  z : ℝ

namespace Vec3

/-- Vector3.add. -/
def add (a b : Vec3) : Vec3 := ⟨a.x + b.x, a.y + b.y, a.z + b.z⟩

/-- Vector3.sub. -/
def sub (a b : Vec3) : Vec3 := ⟨a.x - b.x, a.y - b.y, a.z - b.z⟩

/-- Vector3.multiplyScalar. -/
def smul (a : Vec3) (t : ℝ) : Vec3 := ⟨a.x * t, a.y * t, a.z * t⟩

/-- Vector3.dot. -/
def dot (a b : Vec3) : ℝ := a.x * b.x + a.y * b.y + a.z * b.z

/-- Vector3.cross (crossVectors). -/
def cross (a b : Vec3) : Vec3 :=
  ⟨a.y * b.z - a.z * b.y, a.z * b.x - a.x * b.z, a.x * b.y - a.y * b.x⟩

/-- Vector3.lengthSq. -/
def lengthSq (a : Vec3) : ℝ := a.x * a.x + a.y * a.y + a.z * a.z

/-- Vector3.length. -/
def length (a : Vec3) : ℝ := Real.sqrt a.lengthSq

/-- Vector3.normalize: three.js divides by (length or 1 when the length is 0). -/
def normalize (a : Vec3) : Vec3 := a.smul (1 / (if a.length = 0 then 1 else a.length))

/-- Vector3.lerpVectors: a + (b - a) * t. -/
def lerp (a b : Vec3) (t : ℝ) : Vec3 := a.add ((b.sub a).smul t)

/-- The zero vector, the value of new THREE.Vector3() and of set(0, 0, 0). -/
def zero : Vec3 := ⟨0, 0, 0⟩

end Vec3

/-- Constant MIN_CAMERA_DISTANCE from the source. -/
def MIN_CAMERA_DISTANCE : ℝ := 1.12

/-- Constant DEFAULT_CAMERA_DISTANCE from the source. -/
def DEFAULT_CAMERA_DISTANCE : ℝ := 2.5

/-- Constant CITY_ZOOM_DISTANCE from the source. -/
def CITY_ZOOM_DISTANCE : ℝ := 1.15

/-- latLonToVector3(lat, lon, alt) from the source: maps geodetic coordinates
to a point on or near the unit sphere, r = 1 + alt * 0.0000005,
phi = (90 - lat) * pi/180, theta = (lon + 180) * pi/180. -/
def latLonToVector3 (lat lon alt : ℝ) : Vec3 :=
  ⟨-((1 + alt * 0.0000005) * Real.sin ((90 - lat) * (Real.pi / 180)) *
      Real.cos ((lon + 180) * (Real.pi / 180))),
   (1 + alt * 0.0000005) * Real.cos ((90 - lat) * (Real.pi / 180)),
   (1 + alt * 0.0000005) * Real.sin ((90 - lat) * (Real.pi / 180)) *
      Real.sin ((lon + 180) * (Real.pi / 180))⟩

/-- The up vector of the tangent frame: normalized surface position
(shared lines of getAircraftForwardVector and getAircraftOrientation). -/
def tfUp (lat lon : ℝ) : Vec3 := (latLonToVector3 lat lon 0).normalize

/-- The raw north vector of the tangent frame, before orthogonalization:
(sin(latRad) * cos(lonRad + pi), cos(latRad), -sin(latRad) * sin(lonRad + pi)),
normalized, as in the source. -/
def tfNorthRaw (lat lon : ℝ) : Vec3 :=
  (Vec3.mk
    (Real.sin (lat * (Real.pi / 180)) * Real.cos (lon * (Real.pi / 180) + Real.pi))
    (Real.cos (lat * (Real.pi / 180)))
    (-(Real.sin (lat * (Real.pi / 180))) * Real.sin (lon * (Real.pi / 180) + Real.pi))).normalize

/-- Gram-Schmidt step of the source: north.sub(up * north.dot(up)).normalize(). -/
def tfNorthGS (lat lon : ℝ) : Vec3 :=
  ((tfNorthRaw lat lon).sub
    ((tfUp lat lon).smul ((tfNorthRaw lat lon).dot (tfUp lat lon)))).normalize

/-- east = crossVectors(up, north).normalize() from the source. -/
def tfEast (lat lon : ℝ) : Vec3 := ((tfUp lat lon).cross (tfNorthGS lat lon)).normalize

/-- north recomputed as crossVectors(east, up).normalize() from the source. -/
def tfNorth (lat lon : ℝ) : Vec3 := ((tfEast lat lon).cross (tfUp lat lon)).normalize

/-- The tangent frame (north, east, up) computed by the geodetic math. -/
structure Frame where
  north : Vec3
  east : Vec3
  up : Vec3

/-- The full tangent-frame computation shared by getAircraftForwardVector and
getAircraftOrientation in the source. -/
def tangentFrame (lat lon : ℝ) : Frame :=
  ⟨tfNorth lat lon, tfEast lat lon, tfUp lat lon⟩

/-- getAircraftForwardVector from the source: forward =
(north * cos(headingRad) + east * sin(headingRad)).normalize() with
headingRad = (heading + 90) * pi/180. -/
def getAircraftForwardVector (lat lon heading : ℝ) : Vec3 :=
  (((tfNorth lat lon).smul (Real.cos ((heading + 90) * (Real.pi / 180)))).add
    ((tfEast lat lon).smul (Real.sin ((heading + 90) * (Real.pi / 180))))).normalize

/-- Aircraft position record from the store (position field of an aircraft). -/
structure AircraftPosition where
  latitude : ℝ
  longitude : ℝ
  altitude : ℝ
  heading : ℝ
  speed : ℝ

/-- An aircraft entry of the registry (only the fields the camera reads). -/
structure Aircraft where
  id : String
  position : AircraftPosition

/-- An airport entry of the registry (only the fields the camera reads). -/
structure Airport where
  icao : String
  lat : ℝ
  lon : ℝ

/-- focusLocation value from the store; alt is optional (focusLocation.alt || 0). -/
structure FocusLocation where
  lat : ℝ
  lon : ℝ
  alt : Option ℝ

/-- The discriminated selection from the store: selectedEntity is either an
aircraft id or an airport id (at most one at a time). -/
inductive SelectedEntity where
  | aircraft (id : String)
  | airport (id : String)
  deriving DecidableEq

/-- One consistent snapshot of the external store state observed by the
controller in a single re-render. -/
structure Snapshot where
  selectedEntity : Option SelectedEntity
  focusLocation : Option FocusLocation
  restoreCameraFlag : ℕ
  aircraft : List Aircraft
  airports : List Airport

/-- selectedAircraftId = selectedEntity?.type === aircraft ? id : null. -/
def Snapshot.selectedAircraftId (t : Snapshot) : Option String :=
  match t.selectedEntity with
  | some (SelectedEntity.aircraft i) => some i
  | _ => none

/-- selectedAirportId = selectedEntity?.type === airport ? id : null. -/
def Snapshot.selectedAirportId (t : Snapshot) : Option String :=
  match t.selectedEntity with
  | some (SelectedEntity.airport i) => some i
  | _ => none

/-- The controller state: every mutable ref of CameraController together with
the camera position and the OrbitControls target it drives. -/
structure CtrlState where
  isAnimating : Bool
  animationProgress : ℝ
  startPosition : Vec3
  startTarget : Vec3
  targetCameraPos : Vec3
  targetLookAt : Vec3
  currentTarget : Vec3
  prevSelectedId : Option String
  isReturningToEarth : Bool
  savedCameraPosition : Vec3
  savedCameraTarget : Vec3
  prevFocusLocation : Option (ℝ × ℝ)
  hasSavedForFocus : Bool
  prevRestoreFlag : ℕ
  prevSelectedAirportId : Option String
  cameraPosition : Vec3

/-- The repeated animation-start block of the source: isAnimating = true,
isReturningToEarth = returning, animationProgress = 0, startPosition and
startTarget captured from the current camera pose, and the two targets set. -/
def beginTransition (s : CtrlState) (tpos tlook : Vec3) (returning : Bool) : CtrlState :=
  { s with
    isAnimating := true
    isReturningToEarth := returning
    animationProgress := 0
    startPosition := s.cameraPosition
    startTarget := s.currentTarget
    targetCameraPos := tpos
    targetLookAt := tlook }

/-- Body of the focus effect once the dedupe check has passed (source lines
219 to 245): save on first focus while no aircraft is selected, record the
location, then (unless an aircraft is selected) pan at constant distance. -/
def focusApply (s : CtrlState) (t : Snapshot) (f : FocusLocation) : CtrlState :=
  let selId := t.selectedAircraftId
  let s1 := if s.hasSavedForFocus = false ∧ selId = none then
      { s with
        savedCameraPosition := s.cameraPosition
        savedCameraTarget := s.currentTarget
        hasSavedForFocus := true }
    else s
  let s2 := { s1 with prevFocusLocation := some (f.lat, f.lon) }
  if selId ≠ none then s2
  else
    beginTransition s2
      ((latLonToVector3 f.lat f.lon (f.alt.getD 0)).normalize.smul s2.cameraPosition.length)
      Vec3.zero false

/-- The focus-location effect (source lines 209 to 246), including the
coordinate-epsilon dedupe against prevFocusLocation. -/
def focusEffect (s : CtrlState) (t : Snapshot) : CtrlState :=
  match t.focusLocation with
  | none => s
  | some f =>
    match s.prevFocusLocation with
    | some p =>
      if |p.1 - f.lat| < 0.0001 ∧ |p.2 - f.lon| < 0.0001 then s
      else focusApply s t f
    | none => focusApply s t f

/-- The restore-flag effect (source lines 250 to 274): edge-detect on the
counter, reset the focus bookkeeping, skip while anything is selected, and
otherwise animate back to the saved pose when one is present. -/
def restoreEffect (s : CtrlState) (t : Snapshot) : CtrlState :=
  if t.restoreCameraFlag > 0 ∧ t.restoreCameraFlag ≠ s.prevRestoreFlag then
    let s1 := { s with
      prevRestoreFlag := t.restoreCameraFlag
      prevFocusLocation := none
      hasSavedForFocus := false }
    if t.selectedAircraftId ≠ none ∨ t.selectedAirportId ≠ none then s1
    else if s1.savedCameraPosition.lengthSq > 0 then
      beginTransition s1 s1.savedCameraPosition s1.savedCameraTarget true
    else s1
  else s

/-- The airport-selection effect (source lines 278 to 320): zoom to a newly
selected airport (saving first when nothing was tracked), and on airport
deselection with no aircraft selected animate back, reusing the saved pose
only when one is present (otherwise the previous targets are kept). -/
def airportEffect (s : CtrlState) (t : Snapshot) : CtrlState :=
  let aid := t.selectedAirportId
  let s1 : CtrlState :=
    match aid with
    | some id =>
      if some id ≠ s.prevSelectedAirportId then
        match t.airports.find? (fun a => a.icao == id) with
        | some ap =>
          let s0 := if s.prevSelectedId = none ∧ s.prevSelectedAirportId = none then
              { s with
                savedCameraPosition := s.cameraPosition
                savedCameraTarget := s.currentTarget }
            else s
          beginTransition s0
            ((latLonToVector3 ap.lat ap.lon 0).normalize.smul CITY_ZOOM_DISTANCE)
            Vec3.zero false
        | none => s
      else s
    | none => s
  let s2 :=
    if aid = none ∧ s.prevSelectedAirportId ≠ none ∧ t.selectedAircraftId = none then
      if s1.savedCameraPosition.lengthSq > 0 then
        beginTransition s1 s1.savedCameraPosition s1.savedCameraTarget true
      else
        beginTransition s1 s1.targetCameraPos s1.targetLookAt true
    else s1
  { s2 with prevSelectedAirportId := aid }

/-- viewDistance from the aircraft-selection effect: speedDegPerMin =
(speed / 60) / 60, pathLength3D = (speedDegPerMin * 25) * 0.017,
viewDistance = max(0.08, min(0.25, pathLength3D * 1.5 + 0.05)). -/
def aircraftViewDistance (speed : ℝ) : ℝ :=
  max 0.08 (min 0.25 ((speed / 60 / 60 * 25) * 0.017 * 1.5 + 0.05))

/-- The aircraft-framing camera position of the selection effect: aircraft
position plus an offset of up * (viewDistance * 0.6) and
forward * (-viewDistance * 0.8). -/
def aircraftFramingPos (p : AircraftPosition) : Vec3 :=
  let aircraftPos := latLonToVector3 p.latitude p.longitude p.altitude
  let forward := getAircraftForwardVector p.latitude p.longitude p.heading
  let up := aircraftPos.normalize
  let viewDistance := aircraftViewDistance p.speed
  aircraftPos.add
    ((up.smul (viewDistance * 0.6)).add (forward.smul (-viewDistance * 0.8)))

/-- The aircraft-selection effect (source lines 322 to 389): on a newly
selected aircraft, save the pose when nothing was tracked and frame the
aircraft; on deselection animate back to the saved pose, falling back to a
pull-back pose at CITY_ZOOM_DISTANCE when nothing was saved. -/
def aircraftEffect (s : CtrlState) (t : Snapshot) : CtrlState :=
  let sel := t.selectedAircraftId
  let s1 : CtrlState :=
    match sel with
    | some id =>
      if some id ≠ s.prevSelectedId then
        match t.aircraft.find? (fun a => a.id == id) with
        | some c =>
          let s0 := if s.prevSelectedId = none then
              { s with
                savedCameraPosition := s.cameraPosition
                savedCameraTarget := s.currentTarget }
            else s
          beginTransition s0 (aircraftFramingPos c.position)
            (latLonToVector3 c.position.latitude c.position.longitude c.position.altitude)
            false
        | none => s
      else s
    | none => s
  let s2 :=
    if sel = none ∧ s.prevSelectedId ≠ none then
      if s1.savedCameraPosition.lengthSq > 0 then
        beginTransition s1 s1.savedCameraPosition s1.savedCameraTarget true
      else
        beginTransition s1 (s1.cameraPosition.normalize.smul CITY_ZOOM_DISTANCE) Vec3.zero true
    else s1
  { s2 with prevSelectedId := sel }

/-- One full observation of the external state: the four effect bodies in
their declaration order (focus, restore, airport selection, aircraft
selection), all reading the same snapshot. -/
def observe (s : CtrlState) (t : Snapshot) : CtrlState :=
  aircraftEffect (airportEffect (restoreEffect (focusEffect s t) t) t) t

/-- Cubic ease-out of the tick: eased = 1 - (1 - t)^3. -/
def easeOutCubic (t : ℝ) : ℝ := 1 - (1 - t) ^ 3

/-- The per-frame tick (useFrame body, source lines 391 to 416): advance the
animation by delta * 1.2, interpolate camera position and look-at with the
cubic ease-out, end the animation at progress 1; when idle, clamp the camera
outside MIN_CAMERA_DISTANCE. -/
def tick (s : CtrlState) (delta : ℝ) : CtrlState :=
  if s.isAnimating then
    let p := s.animationProgress + delta * 1.2
    let t := min p 1
    let eased := easeOutCubic t
    let s1 := { s with
      animationProgress := p
      cameraPosition := s.startPosition.lerp s.targetCameraPos eased
      currentTarget := s.startTarget.lerp s.targetLookAt eased }
    if 1 ≤ t then { s1 with isAnimating := false, isReturningToEarth := false } else s1
  else
    if s.cameraPosition.length < MIN_CAMERA_DISTANCE then
      { s with cameraPosition := s.cameraPosition.normalize.smul MIN_CAMERA_DISTANCE }
    else s

/-- A finite sequence of frame ticks. -/
def ticks (s : CtrlState) (ds : List ℝ) : CtrlState := ds.foldl tick s

/-! Basic algebraic lemmas about the vector operations. -/

theorem Vec3.lengthSq_nonneg (a : Vec3) : 0 ≤ a.lengthSq := by
  simp only [Vec3.lengthSq]
  nlinarith [mul_self_nonneg a.x, mul_self_nonneg a.y, mul_self_nonneg a.z]

theorem Vec3.normalize_eq_self (a : Vec3) (h : a.lengthSq = 1) : a.normalize = a := by
  have hl : a.length = 1 := by rw [Vec3.length, h, Real.sqrt_one]
  rw [Vec3.normalize, hl]
  norm_num [Vec3.smul]

theorem Vec3.dot_cross_left (a b : Vec3) : (a.cross b).dot a = 0 := by
  simp only [Vec3.cross, Vec3.dot]; ring

theorem Vec3.dot_cross_right (a b : Vec3) : (a.cross b).dot b = 0 := by
  simp only [Vec3.cross, Vec3.dot]; ring

theorem Vec3.lengthSq_cross (a b : Vec3) :
    (a.cross b).lengthSq = a.lengthSq * b.lengthSq - (a.dot b) ^ 2 := by
  simp only [Vec3.cross, Vec3.lengthSq, Vec3.dot]; ring

theorem Vec3.lerp_one (a b : Vec3) : a.lerp b 1 = b := by
  simp only [Vec3.lerp, Vec3.add, Vec3.sub, Vec3.smul]
  ext <;> dsimp <;> ring

theorem Vec3.lengthSq_lerp_sub (a b : Vec3) (t : ℝ) :
    ((a.lerp b t).sub a).lengthSq = t ^ 2 * (b.sub a).lengthSq := by
  simp only [Vec3.lerp, Vec3.add, Vec3.sub, Vec3.smul, Vec3.lengthSq]
  ring

/-! Lemmas about the ease-out curve. -/

theorem easeOutCubic_one : easeOutCubic 1 = 1 := by norm_num [easeOutCubic]

theorem easeOutCubic_nonneg {t : ℝ} (h0 : 0 ≤ t) (h1 : t ≤ 1) : 0 ≤ easeOutCubic t := by
  simp only [easeOutCubic]
  nlinarith [sq_nonneg (1 - t)]

theorem easeOutCubic_le_three_mul {t : ℝ} (h0 : 0 ≤ t) (h1 : t ≤ 1) :
    easeOutCubic t ≤ 3 * t := by
  simp only [easeOutCubic]
  nlinarith [sq_nonneg t, mul_nonneg h0 h0]

/-! Snapshot projection lemmas. -/

@[simp] theorem Snapshot.selectedAircraftId_none {t : Snapshot}
    (h : t.selectedEntity = none) : t.selectedAircraftId = none := by
  simp [Snapshot.selectedAircraftId, h]

@[simp] theorem Snapshot.selectedAirportId_none {t : Snapshot}
    (h : t.selectedEntity = none) : t.selectedAirportId = none := by
  simp [Snapshot.selectedAirportId, h]

theorem Snapshot.selectedAircraftId_aircraft {t : Snapshot} {a : String}
    (h : t.selectedEntity = some (SelectedEntity.aircraft a)) :
    t.selectedAircraftId = some a := by
  simp [Snapshot.selectedAircraftId, h]

theorem Snapshot.selectedAirportId_aircraft {t : Snapshot} {a : String}
    (h : t.selectedEntity = some (SelectedEntity.aircraft a)) :
    t.selectedAirportId = none := by
  simp [Snapshot.selectedAirportId, h]

theorem Snapshot.selectedAircraftId_airport {t : Snapshot} {a : String}
    (h : t.selectedEntity = some (SelectedEntity.airport a)) :
    t.selectedAircraftId = none := by
  simp [Snapshot.selectedAircraftId, h]

theorem Snapshot.selectedAirportId_airport {t : Snapshot} {a : String}
    (h : t.selectedEntity = some (SelectedEntity.airport a)) :
    t.selectedAirportId = some a := by
  simp [Snapshot.selectedAirportId, h]

/-! Record-update identities used when an effect writes a field it does not change. -/

theorem CtrlState.set_prevFocus_self {s : CtrlState} {v : Option (ℝ × ℝ)}
    (h : s.prevFocusLocation = v) : ({ s with prevFocusLocation := v } : CtrlState) = s := by
  cases s
  simp only at h
  subst h
  rfl

/-! Step lemmas for the focus effect. -/

theorem focusEffect_none {s : CtrlState} {t : Snapshot}
    (h : t.focusLocation = none) : focusEffect s t = s := by
  simp [focusEffect, h]

theorem focusEffect_dup {s : CtrlState} {t : Snapshot} {f : FocusLocation} {p : ℝ × ℝ}
    (hf : t.focusLocation = some f) (hp : s.prevFocusLocation = some p)
    (h1 : |p.1 - f.lat| < 0.0001) (h2 : |p.2 - f.lon| < 0.0001) :
    focusEffect s t = s := by
  simp [focusEffect, hf, hp, h1, h2]

theorem focusEffect_start {s : CtrlState} {t : Snapshot} {f : FocusLocation}
    (hf : t.focusLocation = some f) (hp : s.prevFocusLocation = none)
    (hsel : t.selectedAircraftId = none) (hsave : s.hasSavedForFocus = false) :
    focusEffect s t =
      { s with
        savedCameraPosition := s.cameraPosition
        savedCameraTarget := s.currentTarget
        hasSavedForFocus := true
        prevFocusLocation := some (f.lat, f.lon)
        isAnimating := true
        isReturningToEarth := false
        animationProgress := 0
        startPosition := s.cameraPosition
        startTarget := s.currentTarget
        targetCameraPos :=
          (latLonToVector3 f.lat f.lon (f.alt.getD 0)).normalize.smul s.cameraPosition.length
        targetLookAt := Vec3.zero } := by
  cases s
  simp [focusEffect, focusApply, beginTransition, hf, hp, hsel, hsave] at *
  simp_all

theorem focusEffect_start_nosave {s : CtrlState} {t : Snapshot} {f : FocusLocation}
    (hf : t.focusLocation = some f) (hp : s.prevFocusLocation = none)
    (hsel : t.selectedAircraftId = none) (hsave : s.hasSavedForFocus = true) :
    focusEffect s t =
      { s with
        prevFocusLocation := some (f.lat, f.lon)
        isAnimating := true
        isReturningToEarth := false
        animationProgress := 0
        startPosition := s.cameraPosition
        startTarget := s.currentTarget
        targetCameraPos :=
          (latLonToVector3 f.lat f.lon (f.alt.getD 0)).normalize.smul s.cameraPosition.length
        targetLookAt := Vec3.zero } := by
  cases s
  simp [focusEffect, focusApply, beginTransition, hf, hp, hsel, hsave] at *
  simp_all

theorem focusEffect_selected {s : CtrlState} {t : Snapshot} {a : String}
    (hsel : t.selectedAircraftId = some a) :
    ∃ pf, focusEffect s t = { s with prevFocusLocation := pf } := by
  cases hf : t.focusLocation with
  | none => exact ⟨s.prevFocusLocation, by simp [focusEffect, hf]⟩
  | some f =>
    cases hp : s.prevFocusLocation with
    | none =>
      refine ⟨some (f.lat, f.lon), ?_⟩
      simp [focusEffect, focusApply, hf, hp, hsel]
    | some p =>
      by_cases hd : |p.1 - f.lat| < 0.0001 ∧ |p.2 - f.lon| < 0.0001
      · refine ⟨some p, ?_⟩
        rw [CtrlState.set_prevFocus_self hp]
        simp [focusEffect, hf, hp, hd]
      · refine ⟨some (f.lat, f.lon), ?_⟩
        simp [focusEffect, focusApply, hf, hp, hd, hsel]

theorem focusEffect_saved_of_hasSaved {s : CtrlState} {t : Snapshot}
    (h : s.hasSavedForFocus = true) :
    (focusEffect s t).savedCameraPosition = s.savedCameraPosition ∧
    (focusEffect s t).savedCameraTarget = s.savedCameraTarget ∧
    (focusEffect s t).hasSavedForFocus = true := by
  cases hf : t.focusLocation with
  | none => simp [focusEffect, hf, h]
  | some f =>
    cases hp : s.prevFocusLocation with
    | none =>
      simp only [focusEffect, focusApply, beginTransition, hf, hp, h, Bool.true_eq_false,
        false_and, if_false]
      refine ⟨?_, ?_, ?_⟩ <;> split <;> rfl
    | some p =>
      by_cases hd : |p.1 - f.lat| < 0.0001 ∧ |p.2 - f.lon| < 0.0001
      · simp [focusEffect, hf, hp, hd, h]
      · simp only [focusEffect, focusApply, beginTransition, hf, hp, hd, if_false, h,
          Bool.true_eq_false, false_and]
        refine ⟨?_, ?_, ?_⟩ <;> split <;> rfl

/-! Step lemmas for the restore effect. -/

theorem restoreEffect_quiet {s : CtrlState} {t : Snapshot}
    (h : t.restoreCameraFlag = s.prevRestoreFlag) : restoreEffect s t = s := by
  simp [restoreEffect, h]

theorem restoreEffect_edge_selected {s : CtrlState} {t : Snapshot}
    (h0 : 0 < t.restoreCameraFlag) (h1 : t.restoreCameraFlag ≠ s.prevRestoreFlag)
    (hsel : t.selectedAircraftId ≠ none ∨ t.selectedAirportId ≠ none) :
    restoreEffect s t =
      { s with
        prevRestoreFlag := t.restoreCameraFlag
        prevFocusLocation := none
        hasSavedForFocus := false } := by
  simp only [restoreEffect, if_pos (And.intro h0 h1)]
  rw [if_pos hsel]

theorem restoreEffect_edge_restore {s : CtrlState} {t : Snapshot}
    (h0 : 0 < t.restoreCameraFlag) (h1 : t.restoreCameraFlag ≠ s.prevRestoreFlag)
    (hair : t.selectedAircraftId = none) (hport : t.selectedAirportId = none)
    (hsaved : 0 < s.savedCameraPosition.lengthSq) :
    restoreEffect s t =
      { s with
        prevRestoreFlag := t.restoreCameraFlag
        prevFocusLocation := none
        hasSavedForFocus := false
        isAnimating := true
        isReturningToEarth := true
        animationProgress := 0
        startPosition := s.cameraPosition
        startTarget := s.currentTarget
        targetCameraPos := s.savedCameraPosition
        targetLookAt := s.savedCameraTarget } := by
  cases s
  simp only [restoreEffect, if_pos (And.intro h0 h1), hair, hport, beginTransition]
  simp_all

/-! Step lemmas for the airport-selection effect. -/

theorem airportEffect_noop {s : CtrlState} {t : Snapshot}
    (h : t.selectedAirportId = none)
    (h2 : s.prevSelectedAirportId = none ∨ t.selectedAircraftId ≠ none) :
    airportEffect s t = { s with prevSelectedAirportId := none } := by
  cases h2 with
  | inl hp => simp [airportEffect, h, hp]
  | inr ha => simp [airportEffect, h, ha]

theorem airportEffect_steady {s : CtrlState} {t : Snapshot} {i : String}
    (h : t.selectedAirportId = some i) (hp : s.prevSelectedAirportId = some i) :
    airportEffect s t = s := by
  have : ¬ (some i ≠ s.prevSelectedAirportId) := by simp [hp]
  simp only [airportEffect, h, if_neg this]
  simp only [reduceCtorEq, false_and, if_false]
  rw [← hp]

theorem airportEffect_deselect_stale {s : CtrlState} {t : Snapshot} {i : String}
    (h : t.selectedAirportId = none) (hp : s.prevSelectedAirportId = some i)
    (hair : t.selectedAircraftId = none)
    (hsaved : s.savedCameraPosition.lengthSq = 0) :
    airportEffect s t =
      { s with
        isAnimating := true
        isReturningToEarth := true
        animationProgress := 0
        startPosition := s.cameraPosition
        startTarget := s.currentTarget
        prevSelectedAirportId := none } := by
  have hns : ¬ 0 < s.savedCameraPosition.lengthSq := by rw [hsaved]; exact lt_irrefl 0
  cases s
  simp only [airportEffect, h, hair, hp, beginTransition] at *
  simp_all

/-! Step lemmas for the aircraft-selection effect. -/

theorem aircraftEffect_select_fresh {s : CtrlState} {t : Snapshot} {a : String}
    {c : Aircraft}
    (hsel : t.selectedAircraftId = some a)
    (hprev : s.prevSelectedId = none)
    (hfind : t.aircraft.find? (fun x => x.id == a) = some c) :
    aircraftEffect s t =
      { s with
        savedCameraPosition := s.cameraPosition
        savedCameraTarget := s.currentTarget
        isAnimating := true
        isReturningToEarth := false
        animationProgress := 0
        startPosition := s.cameraPosition
        startTarget := s.currentTarget
        targetCameraPos := aircraftFramingPos c.position
        targetLookAt :=
          latLonToVector3 c.position.latitude c.position.longitude c.position.altitude
        prevSelectedId := some a } := by
  cases s
  simp only [aircraftEffect, hsel, hfind, beginTransition] at *
  simp_all

theorem aircraftEffect_select_switch {s : CtrlState} {t : Snapshot} {a b : String}
    {c : Aircraft}
    (hsel : t.selectedAircraftId = some a)
    (hprev : s.prevSelectedId = some b) (hne : b ≠ a)
    (hfind : t.aircraft.find? (fun x => x.id == a) = some c) :
    aircraftEffect s t =
      { s with
        isAnimating := true
        isReturningToEarth := false
        animationProgress := 0
        startPosition := s.cameraPosition
        startTarget := s.currentTarget
        targetCameraPos := aircraftFramingPos c.position
        targetLookAt :=
          latLonToVector3 c.position.latitude c.position.longitude c.position.altitude
        prevSelectedId := some a } := by
  cases s
  simp only [aircraftEffect, hsel, hfind, beginTransition] at *
  simp_all [Ne.symm hne]

theorem aircraftEffect_deselect_saved {s : CtrlState} {t : Snapshot} {a : String}
    (hsel : t.selectedAircraftId = none)
    (hprev : s.prevSelectedId = some a)
    (hsaved : 0 < s.savedCameraPosition.lengthSq) :
    aircraftEffect s t =
      { s with
        isAnimating := true
        isReturningToEarth := true
        animationProgress := 0
        startPosition := s.cameraPosition
        startTarget := s.currentTarget
        targetCameraPos := s.savedCameraPosition
        targetLookAt := s.savedCameraTarget
        prevSelectedId := none } := by
  cases s
  simp only [aircraftEffect, hsel, beginTransition] at *
  simp_all

theorem aircraftEffect_deselect_empty {s : CtrlState} {t : Snapshot} {a : String}
    (hsel : t.selectedAircraftId = none)
    (hprev : s.prevSelectedId = some a)
    (hsaved : s.savedCameraPosition.lengthSq = 0) :
    aircraftEffect s t =
      { s with
        isAnimating := true
        isReturningToEarth := true
        animationProgress := 0
        startPosition := s.cameraPosition
        startTarget := s.currentTarget
        targetCameraPos := s.cameraPosition.normalize.smul CITY_ZOOM_DISTANCE
        targetLookAt := Vec3.zero
        prevSelectedId := none } := by
  have hns : ¬ 0 < s.savedCameraPosition.lengthSq := by rw [hsaved]; exact lt_irrefl 0
  cases s
  simp only [aircraftEffect, hsel, beginTransition] at *
  simp_all

theorem aircraftEffect_steady {s : CtrlState} {t : Snapshot} {a : String}
    (hsel : t.selectedAircraftId = some a)
    (hprev : s.prevSelectedId = some a) :
    aircraftEffect s t = s := by
  have : ¬ (some a ≠ s.prevSelectedId) := by simp [hprev]
  simp only [aircraftEffect, hsel, if_neg this]
  simp only [reduceCtorEq, false_and, if_false]
  rw [← hprev]

theorem aircraftEffect_idle {s : CtrlState} {t : Snapshot}
    (hsel : t.selectedAircraftId = none)
    (hprev : s.prevSelectedId = none) :
    aircraftEffect s t = s := by
  simp only [aircraftEffect, hsel]
  simp only [hprev, ne_eq, not_true_eq_false, and_false, if_false]
  rw [← hprev]

/-! Step lemmas for the per-frame tick. -/

theorem tick_complete {s : CtrlState} {δ : ℝ} (ha : s.isAnimating = true)
    (hp : 1 ≤ s.animationProgress + δ * 1.2) :
    tick s δ =
      { s with
        animationProgress := s.animationProgress + δ * 1.2
        cameraPosition := s.targetCameraPos
        currentTarget := s.targetLookAt
        isAnimating := false
        isReturningToEarth := false } := by
  have hmin : min (s.animationProgress + δ * 1.2) 1 = 1 := min_eq_right hp
  simp only [tick, ha, if_true, hmin, easeOutCubic_one, Vec3.lerp_one, le_refl, if_pos]

theorem tick_preserves (s : CtrlState) (δ : ℝ) :
    (tick s δ).prevSelectedId = s.prevSelectedId ∧
    (tick s δ).prevSelectedAirportId = s.prevSelectedAirportId ∧
    (tick s δ).prevRestoreFlag = s.prevRestoreFlag ∧
    (tick s δ).prevFocusLocation = s.prevFocusLocation ∧
    (tick s δ).hasSavedForFocus = s.hasSavedForFocus ∧
    (tick s δ).savedCameraPosition = s.savedCameraPosition ∧
    (tick s δ).savedCameraTarget = s.savedCameraTarget := by
  simp only [tick]
  refine ⟨?_, ?_, ?_, ?_, ?_, ?_, ?_⟩ <;>
    (split <;> first | rfl | (split <;> rfl))

theorem ticks_preserves (ds : List ℝ) (s : CtrlState) :
    (ticks s ds).prevSelectedId = s.prevSelectedId ∧
    (ticks s ds).prevSelectedAirportId = s.prevSelectedAirportId ∧
    (ticks s ds).prevRestoreFlag = s.prevRestoreFlag ∧
    (ticks s ds).prevFocusLocation = s.prevFocusLocation ∧
    (ticks s ds).hasSavedForFocus = s.hasSavedForFocus ∧
    (ticks s ds).savedCameraPosition = s.savedCameraPosition ∧
    (ticks s ds).savedCameraTarget = s.savedCameraTarget := by
  induction ds generalizing s with
  | nil => simp [ticks]
  | cons d rest ih =>
    have h1 := tick_preserves s d
    have h2 := ih (tick s d)
    simp only [ticks, List.foldl] at h2 ⊢
    exact ⟨h2.1.trans h1.1, h2.2.1.trans h1.2.1, h2.2.2.1.trans h1.2.2.1,
      h2.2.2.2.1.trans h1.2.2.2.1, h2.2.2.2.2.1.trans h1.2.2.2.2.1,
      h2.2.2.2.2.2.1.trans h1.2.2.2.2.2.1, h2.2.2.2.2.2.2.trans h1.2.2.2.2.2.2⟩

/-! Composite lemmas describing one full observation for the runs the spec
describes: all other external signals quiet. -/

theorem observe_select_fresh {s : CtrlState} {t : Snapshot} {a : String} {c : Aircraft}
    (hent : t.selectedEntity = some (SelectedEntity.aircraft a))
    (hfoc : t.focusLocation = none)
    (hflag : t.restoreCameraFlag = s.prevRestoreFlag)
    (hprev : s.prevSelectedId = none)
    (hprevAir : s.prevSelectedAirportId = none)
    (hfind : t.aircraft.find? (fun x => x.id == a) = some c) :
    observe s t =
      { s with
        prevSelectedAirportId := none
        savedCameraPosition := s.cameraPosition
        savedCameraTarget := s.currentTarget
        isAnimating := true
        isReturningToEarth := false
        animationProgress := 0
        startPosition := s.cameraPosition
        startTarget := s.currentTarget
        targetCameraPos := aircraftFramingPos c.position
        targetLookAt :=
          latLonToVector3 c.position.latitude c.position.longitude c.position.altitude
        prevSelectedId := some a } := by
  have hair := Snapshot.selectedAircraftId_aircraft hent
  have hport := Snapshot.selectedAirportId_aircraft hent
  rw [observe, focusEffect_none hfoc, restoreEffect_quiet hflag,
      airportEffect_noop hport (Or.inl hprevAir),
      aircraftEffect_select_fresh (s := { s with prevSelectedAirportId := none })
        hair hprev hfind]

theorem observe_select_switch {s : CtrlState} {t : Snapshot} {a b : String} {c : Aircraft}
    (hent : t.selectedEntity = some (SelectedEntity.aircraft a))
    (hfoc : t.focusLocation = none)
    (hflag : t.restoreCameraFlag = s.prevRestoreFlag)
    (hprev : s.prevSelectedId = some b) (hne : b ≠ a)
    (hprevAir : s.prevSelectedAirportId = none)
    (hfind : t.aircraft.find? (fun x => x.id == a) = some c) :
    observe s t =
      { s with
        prevSelectedAirportId := none
        isAnimating := true
        isReturningToEarth := false
        animationProgress := 0
        startPosition := s.cameraPosition
        startTarget := s.currentTarget
        targetCameraPos := aircraftFramingPos c.position
        targetLookAt :=
          latLonToVector3 c.position.latitude c.position.longitude c.position.altitude
        prevSelectedId := some a } := by
  have hair := Snapshot.selectedAircraftId_aircraft hent
  have hport := Snapshot.selectedAirportId_aircraft hent
  rw [observe, focusEffect_none hfoc, restoreEffect_quiet hflag,
      airportEffect_noop hport (Or.inl hprevAir),
      aircraftEffect_select_switch (s := { s with prevSelectedAirportId := none })
        hair hprev hne hfind]

theorem observe_deselect_saved {s : CtrlState} {t : Snapshot} {a : String}
    (hent : t.selectedEntity = none)
    (hfoc : t.focusLocation = none)
    (hflag : t.restoreCameraFlag = s.prevRestoreFlag)
    (hprev : s.prevSelectedId = some a)
    (hprevAir : s.prevSelectedAirportId = none)
    (hsaved : 0 < s.savedCameraPosition.lengthSq) :
    observe s t =
      { s with
        prevSelectedAirportId := none
        isAnimating := true
        isReturningToEarth := true
        animationProgress := 0
        startPosition := s.cameraPosition
        startTarget := s.currentTarget
        targetCameraPos := s.savedCameraPosition
        targetLookAt := s.savedCameraTarget
        prevSelectedId := none } := by
  have hair := Snapshot.selectedAircraftId_none hent
  have hport := Snapshot.selectedAirportId_none hent
  rw [observe, focusEffect_none hfoc, restoreEffect_quiet hflag,
      airportEffect_noop hport (Or.inl hprevAir),
      aircraftEffect_deselect_saved (s := { s with prevSelectedAirportId := none })
        hair hprev hsaved]

theorem observe_deselect_empty {s : CtrlState} {t : Snapshot} {a : String}
    (hent : t.selectedEntity = none)
    (hfoc : t.focusLocation = none)
    (hflag : t.restoreCameraFlag = s.prevRestoreFlag)
    (hprev : s.prevSelectedId = some a)
    (hprevAir : s.prevSelectedAirportId = none)
    (hsaved : s.savedCameraPosition.lengthSq = 0) :
    observe s t =
      { s with
        prevSelectedAirportId := none
        isAnimating := true
        isReturningToEarth := true
        animationProgress := 0
        startPosition := s.cameraPosition
        startTarget := s.currentTarget
        targetCameraPos := s.cameraPosition.normalize.smul CITY_ZOOM_DISTANCE
        targetLookAt := Vec3.zero
        prevSelectedId := none } := by
  have hair := Snapshot.selectedAircraftId_none hent
  have hport := Snapshot.selectedAirportId_none hent
  rw [observe, focusEffect_none hfoc, restoreEffect_quiet hflag,
      airportEffect_noop hport (Or.inl hprevAir),
      aircraftEffect_deselect_empty (s := { s with prevSelectedAirportId := none })
        hair hprev hsaved]

theorem observe_restore_edge {s : CtrlState} {t : Snapshot}
    (hent : t.selectedEntity = none)
    (hfoc : t.focusLocation = none)
    (hflag0 : 0 < t.restoreCameraFlag)
    (hflag : t.restoreCameraFlag ≠ s.prevRestoreFlag)
    (hprev : s.prevSelectedId = none)
    (hprevAir : s.prevSelectedAirportId = none)
    (hsaved : 0 < s.savedCameraPosition.lengthSq) :
    observe s t =
      { s with
        prevRestoreFlag := t.restoreCameraFlag
        prevFocusLocation := none
        hasSavedForFocus := false
        prevSelectedAirportId := none
        isAnimating := true
        isReturningToEarth := true
        animationProgress := 0
        startPosition := s.cameraPosition
        startTarget := s.currentTarget
        targetCameraPos := s.savedCameraPosition
        targetLookAt := s.savedCameraTarget
        prevSelectedId := none } := by
  have hair := Snapshot.selectedAircraftId_none hent
  have hport := Snapshot.selectedAirportId_none hent
  rw [observe, focusEffect_none hfoc,
      restoreEffect_edge_restore hflag0 hflag hair hport hsaved]
  rw [airportEffect_noop (s := { s with
        prevRestoreFlag := t.restoreCameraFlag, prevFocusLocation := none,
        hasSavedForFocus := false, isAnimating := true, isReturningToEarth := true,
        animationProgress := 0, startPosition := s.cameraPosition,
        startTarget := s.currentTarget, targetCameraPos := s.savedCameraPosition,
        targetLookAt := s.savedCameraTarget })
      hport (Or.inl hprevAir)]
  rw [aircraftEffect_idle (s := { s with
        prevRestoreFlag := t.restoreCameraFlag, prevFocusLocation := none,
        hasSavedForFocus := false, isAnimating := true, isReturningToEarth := true,
        animationProgress := 0, startPosition := s.cameraPosition,
        startTarget := s.currentTarget, targetCameraPos := s.savedCameraPosition,
        targetLookAt := s.savedCameraTarget, prevSelectedAirportId := none })
      hair hprev]
  rw [hprev]

theorem observe_focus_first {s : CtrlState} {t : Snapshot} {f : FocusLocation}
    (hent : t.selectedEntity = none)
    (hfoc : t.focusLocation = some f)
    (hflag : t.restoreCameraFlag = s.prevRestoreFlag)
    (hprevFoc : s.prevFocusLocation = none)
    (hsave : s.hasSavedForFocus = false)
    (hprev : s.prevSelectedId = none)
    (hprevAir : s.prevSelectedAirportId = none) :
    observe s t =
      { s with
        savedCameraPosition := s.cameraPosition
        savedCameraTarget := s.currentTarget
        hasSavedForFocus := true
        prevFocusLocation := some (f.lat, f.lon)
        isAnimating := true
        isReturningToEarth := false
        animationProgress := 0
        startPosition := s.cameraPosition
        startTarget := s.currentTarget
        targetCameraPos :=
          (latLonToVector3 f.lat f.lon (f.alt.getD 0)).normalize.smul s.cameraPosition.length
        targetLookAt := Vec3.zero
        prevSelectedAirportId := none
        prevSelectedId := none } := by
  have hair := Snapshot.selectedAircraftId_none hent
  have hport := Snapshot.selectedAirportId_none hent
  rw [observe, focusEffect_start hfoc hprevFoc hair hsave]
  rw [restoreEffect_quiet (s := { s with
        savedCameraPosition := s.cameraPosition, savedCameraTarget := s.currentTarget,
        hasSavedForFocus := true, prevFocusLocation := some (f.lat, f.lon),
        isAnimating := true, isReturningToEarth := false, animationProgress := 0,
        startPosition := s.cameraPosition, startTarget := s.currentTarget,
        targetCameraPos := (latLonToVector3 f.lat f.lon
          (f.alt.getD 0)).normalize.smul s.cameraPosition.length,
        targetLookAt := Vec3.zero })
      hflag]
  rw [airportEffect_noop (s := { s with
        savedCameraPosition := s.cameraPosition, savedCameraTarget := s.currentTarget,
        hasSavedForFocus := true, prevFocusLocation := some (f.lat, f.lon),
        isAnimating := true, isReturningToEarth := false, animationProgress := 0,
        startPosition := s.cameraPosition, startTarget := s.currentTarget,
        targetCameraPos := (latLonToVector3 f.lat f.lon
          (f.alt.getD 0)).normalize.smul s.cameraPosition.length,
        targetLookAt := Vec3.zero })
      hport (Or.inl hprevAir)]
  rw [aircraftEffect_idle (s := { s with
        savedCameraPosition := s.cameraPosition, savedCameraTarget := s.currentTarget,
        hasSavedForFocus := true, prevFocusLocation := some (f.lat, f.lon),
        isAnimating := true, isReturningToEarth := false, animationProgress := 0,
        startPosition := s.cameraPosition, startTarget := s.currentTarget,
        targetCameraPos := (latLonToVector3 f.lat f.lon
          (f.alt.getD 0)).normalize.smul s.cameraPosition.length,
        targetLookAt := Vec3.zero, prevSelectedAirportId := none })
      hair hprev]
  rw [hprev]

/-! Concrete fixtures used by the witnesses and counterexamples. -/

/-- A fresh controller state: nothing selected, nothing saved, camera at
distance 2 on the z axis looking at the sphere center. -/
def baseState : CtrlState :=
  { isAnimating := false
    animationProgress := 0
    startPosition := Vec3.zero
    startTarget := Vec3.zero
    targetCameraPos := Vec3.zero
    targetLookAt := Vec3.zero
    currentTarget := Vec3.zero
    prevSelectedId := none
    isReturningToEarth := false
    savedCameraPosition := Vec3.zero
    savedCameraTarget := Vec3.zero
    prevFocusLocation := none
    hasSavedForFocus := false
    prevRestoreFlag := 0
    prevSelectedAirportId := none
    cameraPosition := ⟨0, 0, 2⟩ }

/-- A test aircraft sitting at latitude 0, longitude 0, altitude 0, heading 0,
speed 0. -/
def testAircraft : Aircraft := ⟨"A1", ⟨0, 0, 0, 0, 0⟩⟩

/-! Claim C1. -/

/-- Claim C1: when the RestoreToken has incremented and an aircraft selection
has newly appeared in the same observation, the restore step starts no
animation (it leaves isAnimating and the animation target of its input
unchanged), and the observation ends with the selection transition applied:
an animation toward the aircraft-framing pose, not a returning one. -/
theorem c1_selection_wins_over_restore (s : CtrlState) (t : Snapshot) (a : String)
    (c : Aircraft)
    (hent : t.selectedEntity = some (SelectedEntity.aircraft a))
    (hfoc : t.focusLocation = none)
    (hflag0 : 0 < t.restoreCameraFlag)
    (hflag : t.restoreCameraFlag ≠ s.prevRestoreFlag)
    (hnew : s.prevSelectedId ≠ some a)
    (hfind : t.aircraft.find? (fun x => x.id == a) = some c) :
    (restoreEffect (focusEffect s t) t).isAnimating = (focusEffect s t).isAnimating ∧
    (restoreEffect (focusEffect s t) t).targetCameraPos =
      (focusEffect s t).targetCameraPos ∧
    (observe s t).isAnimating = true ∧
    (observe s t).isReturningToEarth = false ∧
    (observe s t).targetCameraPos = aircraftFramingPos c.position ∧
    (observe s t).targetLookAt =
      latLonToVector3 c.position.latitude c.position.longitude c.position.altitude ∧
    (observe s t).animationProgress = 0 := by
  have hair := Snapshot.selectedAircraftId_aircraft hent
  have hport := Snapshot.selectedAirportId_aircraft hent
  have hfe : focusEffect s t = s := focusEffect_none hfoc
  have hsome : t.selectedAircraftId ≠ none ∨ t.selectedAirportId ≠ none := by
    left; simp [hair]
  have hre := restoreEffect_edge_selected (s := s) hflag0 hflag hsome
  have hae := airportEffect_noop
    (s := { s with prevRestoreFlag := t.restoreCameraFlag, prevFocusLocation := none,
                   hasSavedForFocus := false })
    (t := t) hport (Or.inr (by simp [hair]))
  have hobs : observe s t =
      aircraftEffect
        { s with prevRestoreFlag := t.restoreCameraFlag, prevFocusLocation := none,
                 hasSavedForFocus := false, prevSelectedAirportId := none } t := by
    rw [observe, hfe, hre, hae]
  refine ⟨by rw [hfe, hre], by rw [hfe, hre], ?_⟩
  rcases hps : s.prevSelectedId with _ | b
  · have hsel := aircraftEffect_select_fresh
      (s := { s with prevRestoreFlag := t.restoreCameraFlag, prevFocusLocation := none,
                     hasSavedForFocus := false, prevSelectedAirportId := none })
      (t := t) hair hps hfind
    rw [hobs, hsel]
    simp
  · have hbne : b ≠ a := by
      intro h
      exact hnew (by rw [hps, h])
    have hsel := aircraftEffect_select_switch
      (s := { s with prevRestoreFlag := t.restoreCameraFlag, prevFocusLocation := none,
                     hasSavedForFocus := false, prevSelectedAirportId := none })
      (t := t) hair hps hbne hfind
    rw [hobs, hsel]
    simp

/-- A snapshot in which the RestoreToken has incremented to 1 and aircraft A1
has just been selected. -/
def c1Snap : Snapshot :=
  { selectedEntity := some (SelectedEntity.aircraft "A1")
    focusLocation := none
    restoreCameraFlag := 1
    aircraft := [testAircraft]
    airports := [] }

/-- Witness for C1 at a concrete state and snapshot. -/
theorem c1_selection_wins_over_restore_witness :
    (0 < c1Snap.restoreCameraFlag ∧
      c1Snap.restoreCameraFlag ≠ baseState.prevRestoreFlag ∧
      baseState.prevSelectedId ≠ some "A1") ∧
    ((restoreEffect (focusEffect baseState c1Snap) c1Snap).isAnimating =
        (focusEffect baseState c1Snap).isAnimating ∧
      (restoreEffect (focusEffect baseState c1Snap) c1Snap).targetCameraPos =
        (focusEffect baseState c1Snap).targetCameraPos ∧
      (observe baseState c1Snap).isAnimating = true ∧
      (observe baseState c1Snap).isReturningToEarth = false ∧
      (observe baseState c1Snap).targetCameraPos = aircraftFramingPos testAircraft.position ∧
      (observe baseState c1Snap).targetLookAt =
        latLonToVector3 testAircraft.position.latitude testAircraft.position.longitude
          testAircraft.position.altitude ∧
      (observe baseState c1Snap).animationProgress = 0) :=
  ⟨⟨by decide, by decide, by decide⟩,
    c1_selection_wins_over_restore baseState c1Snap "A1" testAircraft rfl rfl
      (by decide) (by decide) (by decide) rfl⟩

/-! Claim C2. -/

/-- Claim C2: a run that starts untracked at pose P0, selects an aircraft
(saving P0), runs any number of frames, then deselects, begins a returning
animation whose target pose is exactly P0, and a tick that reaches progress 1
puts the camera position and look-at back at P0. -/
theorem c2_save_restore_round_trip (s : CtrlState) (snap1 snap2 : Snapshot)
    (a : String) (c : Aircraft) (ds : List ℝ) (δ : ℝ)
    (hprev : s.prevSelectedId = none)
    (hprevAir : s.prevSelectedAirportId = none)
    (hpos : 0 < s.cameraPosition.lengthSq)
    (hent1 : snap1.selectedEntity = some (SelectedEntity.aircraft a))
    (hfoc1 : snap1.focusLocation = none)
    (hflag1 : snap1.restoreCameraFlag = s.prevRestoreFlag)
    (hfind : snap1.aircraft.find? (fun x => x.id == a) = some c)
    (hent2 : snap2.selectedEntity = none)
    (hfoc2 : snap2.focusLocation = none)
    (hflag2 : snap2.restoreCameraFlag = s.prevRestoreFlag)
    (hδ : 1 ≤ δ * 1.2) :
    (observe s snap1).savedCameraPosition = s.cameraPosition ∧
    (observe s snap1).savedCameraTarget = s.currentTarget ∧
    (observe (ticks (observe s snap1) ds) snap2).isAnimating = true ∧
    (observe (ticks (observe s snap1) ds) snap2).isReturningToEarth = true ∧
    (observe (ticks (observe s snap1) ds) snap2).targetCameraPos = s.cameraPosition ∧
    (observe (ticks (observe s snap1) ds) snap2).targetLookAt = s.currentTarget ∧
    (tick (observe (ticks (observe s snap1) ds) snap2) δ).cameraPosition = s.cameraPosition ∧
    (tick (observe (ticks (observe s snap1) ds) snap2) δ).currentTarget = s.currentTarget := by
  have h1 := observe_select_fresh hent1 hfoc1 hflag1 hprev hprevAir hfind
  have hts := ticks_preserves ds (observe s snap1)
  have hm_prev : (ticks (observe s snap1) ds).prevSelectedId = some a := by
    rw [hts.1, h1]
  have hm_prevAir : (ticks (observe s snap1) ds).prevSelectedAirportId = none := by
    rw [hts.2.1, h1]
  have hm_flag : (ticks (observe s snap1) ds).prevRestoreFlag = s.prevRestoreFlag := by
    rw [hts.2.2.1, h1]
  have hm_saved : (ticks (observe s snap1) ds).savedCameraPosition = s.cameraPosition := by
    rw [hts.2.2.2.2.2.1, h1]
  have hm_savedT : (ticks (observe s snap1) ds).savedCameraTarget = s.currentTarget := by
    rw [hts.2.2.2.2.2.2, h1]
  have h2 := observe_deselect_saved (a := a) hent2 hfoc2
    (by rw [hm_flag]; exact hflag2) hm_prev hm_prevAir
    (by rw [hm_saved]; exact hpos)
  have h3 := tick_complete (s := observe (ticks (observe s snap1) ds) snap2) (δ := δ)
    (by rw [h2])
    (by rw [h2]
        show (1 : ℝ) ≤ 0 + δ * 1.2
        rw [zero_add]; exact hδ)
  refine ⟨by rw [h1], by rw [h1], by rw [h2], by rw [h2], ?_, ?_, ?_, ?_⟩
  · rw [h2]; exact hm_saved
  · rw [h2]; exact hm_savedT
  · rw [h3, h2]; exact hm_saved
  · rw [h3, h2]; exact hm_savedT

/-- A snapshot in which aircraft A1 is selected and everything else is quiet. -/
def selectA1Snap : Snapshot :=
  { selectedEntity := some (SelectedEntity.aircraft "A1")
    focusLocation := none
    restoreCameraFlag := 0
    aircraft := [testAircraft]
    airports := [] }

/-- A fully quiet snapshot: nothing selected, no focus request, flag at 0. -/
def quietSnap : Snapshot :=
  { selectedEntity := none
    focusLocation := none
    restoreCameraFlag := 0
    aircraft := []
    airports := [] }

/-- Witness for C2 at a concrete run. -/
theorem c2_save_restore_round_trip_witness :
    (0 < baseState.cameraPosition.lengthSq ∧ (1 : ℝ) ≤ 1 * 1.2) ∧
    ((observe baseState selectA1Snap).savedCameraPosition = baseState.cameraPosition ∧
      (observe baseState selectA1Snap).savedCameraTarget = baseState.currentTarget ∧
      (observe (ticks (observe baseState selectA1Snap) []) quietSnap).isAnimating = true ∧
      (observe (ticks (observe baseState selectA1Snap) []) quietSnap).isReturningToEarth = true ∧
      (observe (ticks (observe baseState selectA1Snap) []) quietSnap).targetCameraPos =
        baseState.cameraPosition ∧
      (observe (ticks (observe baseState selectA1Snap) []) quietSnap).targetLookAt =
        baseState.currentTarget ∧
      (tick (observe (ticks (observe baseState selectA1Snap) []) quietSnap) 1).cameraPosition =
        baseState.cameraPosition ∧
      (tick (observe (ticks (observe baseState selectA1Snap) []) quietSnap) 1).currentTarget =
        baseState.currentTarget) :=
  ⟨⟨by norm_num [baseState, Vec3.lengthSq], by norm_num⟩,
    c2_save_restore_round_trip baseState selectA1Snap quietSnap "A1" testAircraft [] 1
      rfl rfl (by norm_num [baseState, Vec3.lengthSq]) rfl rfl rfl rfl rfl rfl rfl
      (by norm_num)⟩

/-! Claim C3. -/

/-- Claim C3: selecting aircraft A from an untracked state saves pose P0;
selecting aircraft B without an intervening deselection performs no second
save (the saved slot still holds P0), and the subsequent deselection begins a
returning animation toward P0, not toward the pose held before selecting B. -/
theorem c3_first_save_wins (s : CtrlState) (snap1 snap2 snap3 : Snapshot)
    (a b : String) (acA acB : Aircraft) (ds1 ds2 : List ℝ)
    (hprev : s.prevSelectedId = none)
    (hprevAir : s.prevSelectedAirportId = none)
    (hpos : 0 < s.cameraPosition.lengthSq)
    (hent1 : snap1.selectedEntity = some (SelectedEntity.aircraft a))
    (hfoc1 : snap1.focusLocation = none)
    (hflag1 : snap1.restoreCameraFlag = s.prevRestoreFlag)
    (hfindA : snap1.aircraft.find? (fun x => x.id == a) = some acA)
    (hent2 : snap2.selectedEntity = some (SelectedEntity.aircraft b))
    (hfoc2 : snap2.focusLocation = none)
    (hflag2 : snap2.restoreCameraFlag = s.prevRestoreFlag)
    (hne : a ≠ b)
    (hfindB : snap2.aircraft.find? (fun x => x.id == b) = some acB)
    (hent3 : snap3.selectedEntity = none)
    (hfoc3 : snap3.focusLocation = none)
    (hflag3 : snap3.restoreCameraFlag = s.prevRestoreFlag) :
    (observe (ticks (observe s snap1) ds1) snap2).savedCameraPosition = s.cameraPosition ∧
    (observe (ticks (observe s snap1) ds1) snap2).savedCameraTarget = s.currentTarget ∧
    (observe (ticks (observe (ticks (observe s snap1) ds1) snap2) ds2)
        snap3).isAnimating = true ∧
    (observe (ticks (observe (ticks (observe s snap1) ds1) snap2) ds2)
        snap3).isReturningToEarth = true ∧
    (observe (ticks (observe (ticks (observe s snap1) ds1) snap2) ds2)
        snap3).targetCameraPos = s.cameraPosition ∧
    (observe (ticks (observe (ticks (observe s snap1) ds1) snap2) ds2)
        snap3).targetLookAt = s.currentTarget := by
  have h1 := observe_select_fresh hent1 hfoc1 hflag1 hprev hprevAir hfindA
  have hts1 := ticks_preserves ds1 (observe s snap1)
  have hm1_prev : (ticks (observe s snap1) ds1).prevSelectedId = some a := by
    rw [hts1.1, h1]
  have hm1_prevAir : (ticks (observe s snap1) ds1).prevSelectedAirportId = none := by
    rw [hts1.2.1, h1]
  have hm1_flag : (ticks (observe s snap1) ds1).prevRestoreFlag = s.prevRestoreFlag := by
    rw [hts1.2.2.1, h1]
  have hm1_saved : (ticks (observe s snap1) ds1).savedCameraPosition = s.cameraPosition := by
    rw [hts1.2.2.2.2.2.1, h1]
  have hm1_savedT : (ticks (observe s snap1) ds1).savedCameraTarget = s.currentTarget := by
    rw [hts1.2.2.2.2.2.2, h1]
  have h2 := observe_select_switch (b := a) hent2 hfoc2
    (by rw [hm1_flag]; exact hflag2) hm1_prev hne hm1_prevAir hfindB
  have h2_saved :
      (observe (ticks (observe s snap1) ds1) snap2).savedCameraPosition = s.cameraPosition := by
    rw [h2]; exact hm1_saved
  have h2_savedT :
      (observe (ticks (observe s snap1) ds1) snap2).savedCameraTarget = s.currentTarget := by
    rw [h2]; exact hm1_savedT
  have h2_prev :
      (observe (ticks (observe s snap1) ds1) snap2).prevSelectedId = some b := by
    rw [h2]
  have h2_prevAir :
      (observe (ticks (observe s snap1) ds1) snap2).prevSelectedAirportId = none := by
    rw [h2]
  have h2_flag :
      (observe (ticks (observe s snap1) ds1) snap2).prevRestoreFlag = s.prevRestoreFlag := by
    rw [h2]; exact hm1_flag
  have hts2 := ticks_preserves ds2 (observe (ticks (observe s snap1) ds1) snap2)
  have hm2_prev :
      (ticks (observe (ticks (observe s snap1) ds1) snap2) ds2).prevSelectedId = some b := by
    rw [hts2.1]; exact h2_prev
  have hm2_prevAir :
      (ticks (observe (ticks (observe s snap1) ds1) snap2) ds2).prevSelectedAirportId
        = none := by
    rw [hts2.2.1]; exact h2_prevAir
  have hm2_flag :
      (ticks (observe (ticks (observe s snap1) ds1) snap2) ds2).prevRestoreFlag
        = s.prevRestoreFlag := by
    rw [hts2.2.2.1]; exact h2_flag
  have hm2_saved :
      (ticks (observe (ticks (observe s snap1) ds1) snap2) ds2).savedCameraPosition
        = s.cameraPosition := by
    rw [hts2.2.2.2.2.2.1]; exact h2_saved
  have hm2_savedT :
      (ticks (observe (ticks (observe s snap1) ds1) snap2) ds2).savedCameraTarget
        = s.currentTarget := by
    rw [hts2.2.2.2.2.2.2]; exact h2_savedT
  have h3 := observe_deselect_saved (a := b) hent3 hfoc3
    (by rw [hm2_flag]; exact hflag3) hm2_prev hm2_prevAir
    (by rw [hm2_saved]; exact hpos)
  refine ⟨h2_saved, h2_savedT, by rw [h3], by rw [h3], ?_, ?_⟩
  · rw [h3]; exact hm2_saved
  · rw [h3]; exact hm2_savedT

/-- A snapshot in which aircraft B2 is selected and everything else is quiet. -/
def selectB2Snap : Snapshot :=
  { selectedEntity := some (SelectedEntity.aircraft "B2")
    focusLocation := none
    restoreCameraFlag := 0
    aircraft := [testAircraft, ⟨"B2", ⟨0, 0, 0, 0, 0⟩⟩]
    airports := [] }

/-- Witness for C3 at a concrete run. -/
theorem c3_first_save_wins_witness :
    (0 < baseState.cameraPosition.lengthSq ∧ "A1" ≠ "B2") ∧
    ((observe (ticks (observe baseState selectA1Snap) []) selectB2Snap).savedCameraPosition =
        baseState.cameraPosition ∧
      (observe (ticks (observe baseState selectA1Snap) []) selectB2Snap).savedCameraTarget =
        baseState.currentTarget ∧
      (observe (ticks (observe (ticks (observe baseState selectA1Snap) []) selectB2Snap) [])
          quietSnap).isAnimating = true ∧
      (observe (ticks (observe (ticks (observe baseState selectA1Snap) []) selectB2Snap) [])
          quietSnap).isReturningToEarth = true ∧
      (observe (ticks (observe (ticks (observe baseState selectA1Snap) []) selectB2Snap) [])
          quietSnap).targetCameraPos = baseState.cameraPosition ∧
      (observe (ticks (observe (ticks (observe baseState selectA1Snap) []) selectB2Snap) [])
          quietSnap).targetLookAt = baseState.currentTarget) :=
  ⟨⟨by norm_num [baseState, Vec3.lengthSq], by decide⟩,
    c3_first_save_wins baseState selectA1Snap selectB2Snap quietSnap "A1" "B2"
      testAircraft ⟨"B2", ⟨0, 0, 0, 0, 0⟩⟩ [] []
      rfl rfl (by norm_num [baseState, Vec3.lengthSq]) rfl rfl rfl rfl rfl rfl rfl
      (by decide) rfl rfl rfl rfl⟩

theorem CtrlState.set_prevAirport_self {s : CtrlState} {v : Option String}
    (h : s.prevSelectedAirportId = v) :
    ({ s with prevSelectedAirportId := v } : CtrlState) = s := by
  cases s
  simp only at h
  subst h
  rfl

/-! Claim C5. -/

/-- Claim C5: two consecutive focus requests whose coordinates differ by less
than 1e-4 degrees in each component produce exactly one animation start: the
first observation starts the pan animation, and the second observation is the
identity on the controller state. -/
theorem c5_focus_dedupe (s : CtrlState) (snap1 snap2 : Snapshot) (f1 f2 : FocusLocation)
    (hprevFoc : s.prevFocusLocation = none)
    (hsave : s.hasSavedForFocus = false)
    (hprev : s.prevSelectedId = none)
    (hprevAir : s.prevSelectedAirportId = none)
    (hent1 : snap1.selectedEntity = none)
    (hfoc1 : snap1.focusLocation = some f1)
    (hflag1 : snap1.restoreCameraFlag = s.prevRestoreFlag)
    (hent2 : snap2.selectedEntity = none)
    (hfoc2 : snap2.focusLocation = some f2)
    (hflag2 : snap2.restoreCameraFlag = s.prevRestoreFlag)
    (heps1 : |f1.lat - f2.lat| < 0.0001)
    (heps2 : |f1.lon - f2.lon| < 0.0001) :
    (observe s snap1).isAnimating = true ∧
    (observe s snap1).animationProgress = 0 ∧
    observe (observe s snap1) snap2 = observe s snap1 := by
  have h1 := observe_focus_first hent1 hfoc1 hflag1 hprevFoc hsave hprev hprevAir
  have hair2 := Snapshot.selectedAircraftId_none hent2
  have hport2 := Snapshot.selectedAirportId_none hent2
  refine ⟨by rw [h1], by rw [h1], ?_⟩
  rw [observe]
  rw [focusEffect_dup (p := (f1.lat, f1.lon)) hfoc2 (by rw [h1]) heps1 heps2]
  rw [restoreEffect_quiet (s := observe s snap1) (by rw [h1]; exact hflag2)]
  rw [airportEffect_noop (s := observe s snap1) hport2 (Or.inl (by rw [h1]))]
  rw [aircraftEffect_idle (s := { observe s snap1 with prevSelectedAirportId := none })
    hair2 (by rw [h1])]
  exact CtrlState.set_prevAirport_self (by rw [h1])

/-- A snapshot carrying a focus request at latitude 10, longitude 20. -/
def focusSnap : Snapshot :=
  { selectedEntity := none
    focusLocation := some ⟨10, 20, none⟩
    restoreCameraFlag := 0
    aircraft := []
    airports := [] }

/-- Witness for C5: the same focus request issued twice in a row. -/
theorem c5_focus_dedupe_witness :
    (|(10 : ℝ) - 10| < 0.0001 ∧ |(20 : ℝ) - 20| < 0.0001) ∧
    ((observe baseState focusSnap).isAnimating = true ∧
      (observe baseState focusSnap).animationProgress = 0 ∧
      observe (observe baseState focusSnap) focusSnap = observe baseState focusSnap) :=
  ⟨⟨by norm_num, by norm_num⟩,
    c5_focus_dedupe baseState focusSnap focusSnap ⟨10, 20, none⟩ ⟨10, 20, none⟩
      rfl rfl rfl rfl rfl rfl rfl rfl rfl rfl (by norm_num) (by norm_num)⟩

theorem tick_anim (s : CtrlState) (δ : ℝ) (ha : s.isAnimating = true) :
    (tick s δ).cameraPosition =
      s.startPosition.lerp s.targetCameraPos
        (easeOutCubic (min (s.animationProgress + δ * 1.2) 1)) ∧
    (tick s δ).currentTarget =
      s.startTarget.lerp s.targetLookAt
        (easeOutCubic (min (s.animationProgress + δ * 1.2) 1)) := by
  simp only [tick, ha, if_true]
  constructor <;> (split <;> rfl)

/-! Claim C8. -/

/-- Claim C8: beginning a new animation while one is in flight overrides it
with no queueing: the new animation starts from the current interpolated
camera pose (not from the previous target), its progress restarts at 0, and
the next tick moves along the segment from the current pose toward the new
target, the squared displacement bounded by the frame's interpolation
fraction, so there is no discontinuous jump. -/
theorem c8_override_midflight (s : CtrlState) (tpos tlook : Vec3) (r : Bool)
    (hanim : s.isAnimating = true)
    (hprog : s.animationProgress < 1) :
    (beginTransition s tpos tlook r).startPosition = s.cameraPosition ∧
    (beginTransition s tpos tlook r).startTarget = s.currentTarget ∧
    (beginTransition s tpos tlook r).targetCameraPos = tpos ∧
    (beginTransition s tpos tlook r).targetLookAt = tlook ∧
    (beginTransition s tpos tlook r).animationProgress = 0 ∧
    ∀ δ : ℝ, 0 ≤ δ →
      (tick (beginTransition s tpos tlook r) δ).cameraPosition =
        s.cameraPosition.lerp tpos (easeOutCubic (min (δ * 1.2) 1)) ∧
      (tick (beginTransition s tpos tlook r) δ).currentTarget =
        s.currentTarget.lerp tlook (easeOutCubic (min (δ * 1.2) 1)) ∧
      ((tick (beginTransition s tpos tlook r) δ).cameraPosition.sub
          s.cameraPosition).lengthSq ≤
        (3 * (δ * 1.2)) ^ 2 * (tpos.sub s.cameraPosition).lengthSq := by
  refine ⟨rfl, rfl, rfl, rfl, rfl, ?_⟩
  intro δ hδ
  have hformula := tick_anim (beginTransition s tpos tlook r) δ rfl
  have hcam : (tick (beginTransition s tpos tlook r) δ).cameraPosition =
      s.cameraPosition.lerp tpos (easeOutCubic (min (δ * 1.2) 1)) := by
    rw [hformula.1]
    simp only [beginTransition]
    norm_num
  have htgt : (tick (beginTransition s tpos tlook r) δ).currentTarget =
      s.currentTarget.lerp tlook (easeOutCubic (min (δ * 1.2) 1)) := by
    rw [hformula.2]
    simp only [beginTransition]
    norm_num
  have hδ12 : 0 ≤ δ * 1.2 := by nlinarith
  have hmin0 : 0 ≤ min (δ * 1.2) 1 := le_min hδ12 (by norm_num)
  have hmin1 : min (δ * 1.2) 1 ≤ 1 := min_le_right _ _
  have he0 := easeOutCubic_nonneg hmin0 hmin1
  have he1 := easeOutCubic_le_three_mul hmin0 hmin1
  have hminle : min (δ * 1.2) 1 ≤ δ * 1.2 := min_le_left _ _
  have hee : easeOutCubic (min (δ * 1.2) 1) ≤ 3 * (δ * 1.2) := by nlinarith
  have hsq : (easeOutCubic (min (δ * 1.2) 1)) ^ 2 ≤ (3 * (δ * 1.2)) ^ 2 := by nlinarith
  refine ⟨hcam, htgt, ?_⟩
  rw [hcam, Vec3.lengthSq_lerp_sub]
  exact mul_le_mul_of_nonneg_right hsq (Vec3.lengthSq_nonneg _)

/-- A controller state with an animation in flight at progress one half. -/
def midFlightState : CtrlState :=
  { baseState with
    isAnimating := true
    animationProgress := 0.5
    startPosition := ⟨0, 0, 2⟩
    targetCameraPos := ⟨1, 1, 1⟩
    targetLookAt := ⟨1, 0, 0⟩ }

/-- Witness for C8 at a concrete in-flight state redirected to a new target. -/
theorem c8_override_midflight_witness :
    (midFlightState.isAnimating = true ∧ midFlightState.animationProgress < 1) ∧
    ((beginTransition midFlightState ⟨0, 1, 0⟩ Vec3.zero false).startPosition =
        midFlightState.cameraPosition ∧
      (beginTransition midFlightState ⟨0, 1, 0⟩ Vec3.zero false).startTarget =
        midFlightState.currentTarget ∧
      (beginTransition midFlightState ⟨0, 1, 0⟩ Vec3.zero false).targetCameraPos = ⟨0, 1, 0⟩ ∧
      (beginTransition midFlightState ⟨0, 1, 0⟩ Vec3.zero false).targetLookAt = Vec3.zero ∧
      (beginTransition midFlightState ⟨0, 1, 0⟩ Vec3.zero false).animationProgress = 0 ∧
      ∀ δ : ℝ, 0 ≤ δ →
        (tick (beginTransition midFlightState ⟨0, 1, 0⟩ Vec3.zero false) δ).cameraPosition =
          midFlightState.cameraPosition.lerp ⟨0, 1, 0⟩ (easeOutCubic (min (δ * 1.2) 1)) ∧
        (tick (beginTransition midFlightState ⟨0, 1, 0⟩ Vec3.zero false) δ).currentTarget =
          midFlightState.currentTarget.lerp Vec3.zero (easeOutCubic (min (δ * 1.2) 1)) ∧
        ((tick (beginTransition midFlightState ⟨0, 1, 0⟩ Vec3.zero false) δ).cameraPosition.sub
            midFlightState.cameraPosition).lengthSq ≤
          (3 * (δ * 1.2)) ^ 2 * ((Vec3.sub ⟨0, 1, 0⟩ midFlightState.cameraPosition)).lengthSq) :=
  ⟨⟨rfl, by norm_num [midFlightState, baseState]⟩,
    c8_override_midflight midFlightState ⟨0, 1, 0⟩ Vec3.zero false rfl
      (by norm_num [midFlightState, baseState])⟩

/-! Claim C4. -/

/-- Claim C4 (amended): while an aircraft selection is active, a newly
arrived focus request is ignored — the observation starts no camera
animation, leaves the animation target, progress and saved slot unchanged.
(An active airport selection does not suppress focus requests; see the
counterexample.) -/
theorem c4_focus_ignored_while_aircraft_selected (s : CtrlState) (t : Snapshot)
    (a : String)
    (hent : t.selectedEntity = some (SelectedEntity.aircraft a))
    (hprev : s.prevSelectedId = some a)
    (hflag : t.restoreCameraFlag = s.prevRestoreFlag) :
    (observe s t).isAnimating = s.isAnimating ∧
    (observe s t).animationProgress = s.animationProgress ∧
    (observe s t).isReturningToEarth = s.isReturningToEarth ∧
    (observe s t).targetCameraPos = s.targetCameraPos ∧
    (observe s t).targetLookAt = s.targetLookAt ∧
    (observe s t).startPosition = s.startPosition ∧
    (observe s t).savedCameraPosition = s.savedCameraPosition := by
  have hair := Snapshot.selectedAircraftId_aircraft hent
  have hport := Snapshot.selectedAirportId_aircraft hent
  obtain ⟨pf, hfe⟩ := focusEffect_selected (s := s) (a := a) hair
  rw [observe, hfe]
  rw [restoreEffect_quiet (s := { s with prevFocusLocation := pf }) hflag]
  rw [airportEffect_noop (s := { s with prevFocusLocation := pf }) hport
    (Or.inr (by simp [hair]))]
  rw [aircraftEffect_steady
    (s := { s with prevFocusLocation := pf, prevSelectedAirportId := none })
    hair hprev]
  exact ⟨rfl, rfl, rfl, rfl, rfl, rfl, rfl⟩

/-- A state in which airport KJFK is already being tracked and the animation
targets are at some arbitrary pose. -/
def c4CexState : CtrlState :=
  { baseState with
    prevSelectedAirportId := some "KJFK"
    targetCameraPos := ⟨5, 5, 5⟩
    targetLookAt := ⟨1, 1, 1⟩ }

/-- A snapshot with airport KJFK selected and a freshly arrived focus request. -/
def c4CexSnap : Snapshot :=
  { selectedEntity := some (SelectedEntity.airport "KJFK")
    focusLocation := some ⟨10, 20, none⟩
    restoreCameraFlag := 0
    aircraft := []
    airports := [] }

/-- Counterexample to claim C4 as stated: with an airport selection active
(an entity selection), a newly arrived focus request is not ignored — the
observation starts an animation and changes the animation target. -/
theorem c4_counterexample :
    c4CexSnap.selectedAirportId = some "KJFK" ∧
    c4CexState.prevSelectedAirportId = some "KJFK" ∧
    c4CexState.isAnimating = false ∧
    (observe c4CexState c4CexSnap).isAnimating = true ∧
    (observe c4CexState c4CexSnap).targetLookAt ≠ c4CexState.targetLookAt := by
  refine ⟨rfl, rfl, rfl, ?_, ?_⟩
  · simp [observe, focusEffect, focusApply, restoreEffect, airportEffect, aircraftEffect,
      beginTransition, c4CexState, c4CexSnap, baseState,
      Snapshot.selectedAircraftId, Snapshot.selectedAirportId]
  · simp only [observe, focusEffect, focusApply, restoreEffect, airportEffect,
      aircraftEffect, beginTransition, c4CexState, c4CexSnap, baseState,
      Snapshot.selectedAircraftId, Snapshot.selectedAirportId]
    simp [Vec3.zero, Vec3.ext_iff]

/-- A state tracking aircraft A1. -/
def c4WitState : CtrlState := { baseState with prevSelectedId := some "A1" }

/-- A snapshot with aircraft A1 selected and a freshly arrived focus request. -/
def c4WitSnap : Snapshot :=
  { selectedEntity := some (SelectedEntity.aircraft "A1")
    focusLocation := some ⟨10, 20, none⟩
    restoreCameraFlag := 0
    aircraft := []
    airports := [] }

/-- Witness for the amended C4. -/
theorem c4_focus_ignored_while_aircraft_selected_witness :
    (c4WitSnap.selectedEntity = some (SelectedEntity.aircraft "A1") ∧
      c4WitState.prevSelectedId = some "A1") ∧
    ((observe c4WitState c4WitSnap).isAnimating = c4WitState.isAnimating ∧
      (observe c4WitState c4WitSnap).animationProgress = c4WitState.animationProgress ∧
      (observe c4WitState c4WitSnap).isReturningToEarth = c4WitState.isReturningToEarth ∧
      (observe c4WitState c4WitSnap).targetCameraPos = c4WitState.targetCameraPos ∧
      (observe c4WitState c4WitSnap).targetLookAt = c4WitState.targetLookAt ∧
      (observe c4WitState c4WitSnap).startPosition = c4WitState.startPosition ∧
      (observe c4WitState c4WitSnap).savedCameraPosition = c4WitState.savedCameraPosition) :=
  ⟨⟨rfl, rfl⟩,
    c4_focus_ignored_while_aircraft_selected c4WitState c4WitSnap "A1" rfl rfl rfl⟩

/-! Claim C6. -/

/-- Claim C6 (amended): an aircraft deselection that occurs while the saved
slot is empty degrades gracefully to the deterministic default view: a
returning animation whose target is the pull-back pose at CITY_ZOOM_DISTANCE
along the current camera direction with look-at at the sphere center. (An
airport deselection with an empty slot instead keeps the previous animation
target; see the counterexample.) -/
theorem c6_aircraft_deselect_empty_fallback (s : CtrlState) (t : Snapshot) (a : String)
    (hent : t.selectedEntity = none)
    (hfoc : t.focusLocation = none)
    (hflag : t.restoreCameraFlag = s.prevRestoreFlag)
    (hprev : s.prevSelectedId = some a)
    (hprevAir : s.prevSelectedAirportId = none)
    (hsaved : s.savedCameraPosition.lengthSq = 0) :
    (observe s t).isAnimating = true ∧
    (observe s t).isReturningToEarth = true ∧
    (observe s t).animationProgress = 0 ∧
    (observe s t).targetCameraPos = s.cameraPosition.normalize.smul CITY_ZOOM_DISTANCE ∧
    (observe s t).targetLookAt = Vec3.zero := by
  have h := observe_deselect_empty hent hfoc hflag hprev hprevAir hsaved
  exact ⟨by rw [h], by rw [h], by rw [h], by rw [h], by rw [h]⟩

/-- Normalizing the vector (0, 0, 2) gives (0, 0, 1). -/
theorem normalize_002 : Vec3.normalize ⟨0, 0, 2⟩ = ⟨0, 0, 1⟩ := by
  have hl : (Vec3.mk 0 0 2).length = 2 := by
    rw [Vec3.length, show (Vec3.mk 0 0 2).lengthSq = 4 by norm_num [Vec3.lengthSq],
      show (4 : ℝ) = 2 ^ 2 by norm_num, Real.sqrt_sq (by norm_num : (0 : ℝ) ≤ 2)]
  rw [Vec3.normalize, hl]
  norm_num [Vec3.smul]

/-- A state tracking airport KJFK with an empty saved slot and some previous
animation target. -/
def c6CexState : CtrlState :=
  { baseState with
    prevSelectedAirportId := some "KJFK"
    targetCameraPos := ⟨9, 9, 9⟩
    targetLookAt := ⟨9, 9, 9⟩ }

/-- Counterexample to claim C6 as stated: an airport deselection with an
empty saved slot starts a returning animation but keeps the stale previous
target, which is not the pull-back pose along the camera direction. -/
theorem c6_counterexample :
    c6CexState.savedCameraPosition.lengthSq = 0 ∧
    c6CexState.prevSelectedAirportId = some "KJFK" ∧
    (observe c6CexState quietSnap).isAnimating = true ∧
    (observe c6CexState quietSnap).isReturningToEarth = true ∧
    (observe c6CexState quietSnap).targetCameraPos = ⟨9, 9, 9⟩ ∧
    (observe c6CexState quietSnap).targetCameraPos ≠
      c6CexState.cameraPosition.normalize.smul CITY_ZOOM_DISTANCE := by
  have h1 : focusEffect c6CexState quietSnap = c6CexState := focusEffect_none rfl
  have h2 : restoreEffect c6CexState quietSnap = c6CexState := restoreEffect_quiet rfl
  have h3 := airportEffect_deselect_stale (s := c6CexState) (t := quietSnap)
    (i := "KJFK") rfl rfl rfl (by norm_num [c6CexState, baseState, Vec3.lengthSq, Vec3.zero])
  have hobs : observe c6CexState quietSnap =
      { c6CexState with
        isAnimating := true
        isReturningToEarth := true
        animationProgress := 0
        startPosition := c6CexState.cameraPosition
        startTarget := c6CexState.currentTarget
        prevSelectedAirportId := none } := by
    rw [observe, h1, h2, h3]
    exact aircraftEffect_idle rfl rfl
  refine ⟨by norm_num [c6CexState, baseState, Vec3.lengthSq, Vec3.zero], rfl,
    by rw [hobs], by rw [hobs], by rw [hobs]; rfl, ?_⟩
  rw [hobs]
  show c6CexState.targetCameraPos ≠ c6CexState.cameraPosition.normalize.smul CITY_ZOOM_DISTANCE
  show (Vec3.mk 9 9 9) ≠ (Vec3.normalize ⟨0, 0, 2⟩).smul CITY_ZOOM_DISTANCE
  rw [normalize_002]
  simp only [Vec3.smul, CITY_ZOOM_DISTANCE, Vec3.ext_iff, not_and]
  norm_num

/-- A state tracking aircraft A1 with an empty saved slot. -/
def c6WitState : CtrlState := { baseState with prevSelectedId := some "A1" }

/-- Witness for the amended C6. -/
theorem c6_aircraft_deselect_empty_fallback_witness :
    (c6WitState.prevSelectedId = some "A1" ∧
      c6WitState.savedCameraPosition.lengthSq = 0) ∧
    ((observe c6WitState quietSnap).isAnimating = true ∧
      (observe c6WitState quietSnap).isReturningToEarth = true ∧
      (observe c6WitState quietSnap).animationProgress = 0 ∧
      (observe c6WitState quietSnap).targetCameraPos =
        c6WitState.cameraPosition.normalize.smul CITY_ZOOM_DISTANCE ∧
      (observe c6WitState quietSnap).targetLookAt = Vec3.zero) :=
  ⟨⟨rfl, by norm_num [c6WitState, baseState, Vec3.lengthSq, Vec3.zero]⟩,
    c6_aircraft_deselect_empty_fallback c6WitState quietSnap "A1" rfl rfl rfl rfl rfl
      (by norm_num [c6WitState, baseState, Vec3.lengthSq, Vec3.zero])⟩

/-! Claim C7. -/

/-- Claim C7 (amended): consuming the saved pose does not clear the slot.
After a deselection has used the saved pose and its animation has completed,
a RestoreToken increment with no intervening save still finds the pose in the
slot and starts a returning animation toward it. -/
theorem c7_saved_slot_not_cleared (s : CtrlState) (snapD snapR : Snapshot) (a : String)
    (δ : ℝ)
    (hprev : s.prevSelectedId = some a)
    (hprevAir : s.prevSelectedAirportId = none)
    (hsaved : 0 < s.savedCameraPosition.lengthSq)
    (hentD : snapD.selectedEntity = none)
    (hfocD : snapD.focusLocation = none)
    (hflagD : snapD.restoreCameraFlag = s.prevRestoreFlag)
    (hδ : 1 ≤ δ * 1.2)
    (hentR : snapR.selectedEntity = none)
    (hfocR : snapR.focusLocation = none)
    (hflagR0 : 0 < snapR.restoreCameraFlag)
    (hflagR : snapR.restoreCameraFlag ≠ s.prevRestoreFlag) :
    (observe s snapD).savedCameraPosition = s.savedCameraPosition ∧
    (tick (observe s snapD) δ).isAnimating = false ∧
    (observe (tick (observe s snapD) δ) snapR).isAnimating = true ∧
    (observe (tick (observe s snapD) δ) snapR).isReturningToEarth = true ∧
    (observe (tick (observe s snapD) δ) snapR).targetCameraPos = s.savedCameraPosition ∧
    (observe (tick (observe s snapD) δ) snapR).savedCameraPosition =
      s.savedCameraPosition := by
  have h1 := observe_deselect_saved hentD hfocD hflagD hprev hprevAir hsaved
  have h2 := tick_complete (s := observe s snapD) (δ := δ) (by rw [h1])
    (by rw [h1]
        show (1 : ℝ) ≤ 0 + δ * 1.2
        rw [zero_add]; exact hδ)
  have h2_saved : (tick (observe s snapD) δ).savedCameraPosition
      = s.savedCameraPosition := by rw [h2, h1]
  have h2_prev : (tick (observe s snapD) δ).prevSelectedId = none := by rw [h2, h1]
  have h2_prevAir : (tick (observe s snapD) δ).prevSelectedAirportId = none := by
    rw [h2, h1]
  have h2_flag : (tick (observe s snapD) δ).prevRestoreFlag = s.prevRestoreFlag := by
    rw [h2, h1]
  have h3 := observe_restore_edge (s := tick (observe s snapD) δ) hentR hfocR hflagR0
    (by rw [h2_flag]; exact hflagR) h2_prev h2_prevAir
    (by rw [h2_saved]; exact hsaved)
  refine ⟨by rw [h1], by rw [h2], by rw [h3], by rw [h3], ?_, ?_⟩
  · rw [h3]; exact h2_saved
  · rw [h3]; exact h2_saved

/-- A snapshot carrying a RestoreToken increment and nothing else. -/
def restoreSnap : Snapshot :=
  { selectedEntity := none
    focusLocation := none
    restoreCameraFlag := 1
    aircraft := []
    airports := [] }

/-- Counterexample to claim C7 as stated: select A1 (saves the pose), deselect
(the return-style transition consumes the saved pose), finish the animation,
then increment the RestoreToken with no intervening save — the engine still
finds a saved pose (the slot was never cleared) and starts a restore
animation toward it, instead of starting none. -/
theorem c7_counterexample :
    (tick (observe (observe baseState selectA1Snap) quietSnap) 1).isAnimating = false ∧
    (tick (observe (observe baseState selectA1Snap) quietSnap)
        1).savedCameraPosition.lengthSq ≠ 0 ∧
    (observe (tick (observe (observe baseState selectA1Snap) quietSnap) 1)
        restoreSnap).isAnimating = true ∧
    (observe (tick (observe (observe baseState selectA1Snap) quietSnap) 1)
        restoreSnap).isReturningToEarth = true ∧
    (observe (tick (observe (observe baseState selectA1Snap) quietSnap) 1)
        restoreSnap).targetCameraPos = ⟨0, 0, 2⟩ := by
  have h1 := observe_select_fresh (s := baseState) (t := selectA1Snap)
    (a := "A1") (c := testAircraft) rfl rfl rfl rfl rfl rfl
  have h2 := observe_deselect_saved (s := observe baseState selectA1Snap)
    (t := quietSnap) (a := "A1") rfl rfl (by rw [h1]; rfl) (by rw [h1]) (by rw [h1])
    (by rw [h1]; norm_num [baseState, Vec3.lengthSq])
  have h3 := tick_complete (s := observe (observe baseState selectA1Snap) quietSnap)
    (δ := 1) (by rw [h2])
    (by rw [h2]
        show (1 : ℝ) ≤ 0 + 1 * 1.2
        norm_num)
  have h3_saved : (tick (observe (observe baseState selectA1Snap) quietSnap)
      1).savedCameraPosition = baseState.cameraPosition := by rw [h3, h2, h1]
  have h3_prev : (tick (observe (observe baseState selectA1Snap) quietSnap)
      1).prevSelectedId = none := by rw [h3, h2, h1]
  have h3_prevAir : (tick (observe (observe baseState selectA1Snap) quietSnap)
      1).prevSelectedAirportId = none := by rw [h3, h2, h1]
  have h3_flag : (tick (observe (observe baseState selectA1Snap) quietSnap)
      1).prevRestoreFlag = 0 := by rw [h3, h2, h1]; rfl
  have h4 := observe_restore_edge
    (s := tick (observe (observe baseState selectA1Snap) quietSnap) 1)
    (t := restoreSnap) rfl rfl (by decide) (by rw [h3_flag]; decide)
    h3_prev h3_prevAir
    (by rw [h3_saved]; norm_num [baseState, Vec3.lengthSq])
  refine ⟨by rw [h3], ?_, by rw [h4], by rw [h4], ?_⟩
  · rw [h3_saved]
    norm_num [baseState, Vec3.lengthSq]
  · rw [h4]
    rw [h3_saved]
    rfl

/-- A state tracking aircraft A1 with the camera pose saved in the slot. -/
def c7WitState : CtrlState :=
  { baseState with
    prevSelectedId := some "A1"
    savedCameraPosition := ⟨0, 0, 2⟩
    savedCameraTarget := Vec3.zero }

/-- Witness for the amended C7. -/
theorem c7_saved_slot_not_cleared_witness :
    (0 < c7WitState.savedCameraPosition.lengthSq ∧
      (1 : ℝ) ≤ 1 * 1.2 ∧
      0 < restoreSnap.restoreCameraFlag ∧
      restoreSnap.restoreCameraFlag ≠ c7WitState.prevRestoreFlag) ∧
    ((observe c7WitState quietSnap).savedCameraPosition =
        c7WitState.savedCameraPosition ∧
      (tick (observe c7WitState quietSnap) 1).isAnimating = false ∧
      (observe (tick (observe c7WitState quietSnap) 1) restoreSnap).isAnimating = true ∧
      (observe (tick (observe c7WitState quietSnap) 1) restoreSnap).isReturningToEarth
        = true ∧
      (observe (tick (observe c7WitState quietSnap) 1) restoreSnap).targetCameraPos =
        c7WitState.savedCameraPosition ∧
      (observe (tick (observe c7WitState quietSnap) 1) restoreSnap).savedCameraPosition =
        c7WitState.savedCameraPosition) :=
  ⟨⟨by norm_num [c7WitState, baseState, Vec3.lengthSq], by norm_num, by decide, by decide⟩,
    c7_saved_slot_not_cleared c7WitState quietSnap restoreSnap "A1" 1 rfl rfl
      (by norm_num [c7WitState, baseState, Vec3.lengthSq]) rfl rfl rfl (by norm_num)
      rfl rfl (by decide) (by decide)⟩

/-! Claim C10. -/

theorem focusEffect_preserves (s : CtrlState) (t : Snapshot) :
    (focusEffect s t).prevRestoreFlag = s.prevRestoreFlag ∧
    (focusEffect s t).prevSelectedId = s.prevSelectedId ∧
    (focusEffect s t).prevSelectedAirportId = s.prevSelectedAirportId ∧
    (focusEffect s t).cameraPosition = s.cameraPosition ∧
    (focusEffect s t).currentTarget = s.currentTarget := by
  refine ⟨?_, ?_, ?_, ?_, ?_⟩ <;>
  · simp only [focusEffect, focusApply, beginTransition]
    repeat' split
    all_goals rfl

theorem airportEffect_saved_of_none {s : CtrlState} {t : Snapshot}
    (h : t.selectedAirportId = none) :
    (airportEffect s t).savedCameraPosition = s.savedCameraPosition ∧
    (airportEffect s t).savedCameraTarget = s.savedCameraTarget := by
  simp only [airportEffect, h, beginTransition]
  constructor <;> (split <;> first | rfl | (split <;> rfl))

theorem aircraftEffect_saved_of_none {s : CtrlState} {t : Snapshot}
    (h : t.selectedAircraftId = none) :
    (aircraftEffect s t).savedCameraPosition = s.savedCameraPosition ∧
    (aircraftEffect s t).savedCameraTarget = s.savedCameraTarget := by
  simp only [aircraftEffect, h, beginTransition]
  constructor <;> (split <;> first | rfl | (split <;> rfl))

/-- Claim C10 (amended): the first focus request of a focus episode (started
at engine start or by the last RestoreToken observation, which is what clears
the first-focus flag — deselection does not) saves the current camera pose
before panning; any later focus request of the same episode does not write
the saved slot again. -/
theorem c10_first_focus_saves_per_restore_episode (s : CtrlState)
    (snapF1 snapF2 : Snapshot) (f1 f2 : FocusLocation)
    (hprevFoc : s.prevFocusLocation = none)
    (hsave : s.hasSavedForFocus = false)
    (hprev : s.prevSelectedId = none)
    (hprevAir : s.prevSelectedAirportId = none)
    (hent1 : snapF1.selectedEntity = none)
    (hfoc1 : snapF1.focusLocation = some f1)
    (hflag1 : snapF1.restoreCameraFlag = s.prevRestoreFlag)
    (hent2 : snapF2.selectedEntity = none)
    (hfoc2 : snapF2.focusLocation = some f2)
    (hflag2 : snapF2.restoreCameraFlag = s.prevRestoreFlag) :
    (observe s snapF1).savedCameraPosition = s.cameraPosition ∧
    (observe s snapF1).savedCameraTarget = s.currentTarget ∧
    (observe s snapF1).hasSavedForFocus = true ∧
    (observe (observe s snapF1) snapF2).savedCameraPosition = s.cameraPosition ∧
    (observe (observe s snapF1) snapF2).savedCameraTarget = s.currentTarget := by
  have hair2 := Snapshot.selectedAircraftId_none hent2
  have hport2 := Snapshot.selectedAirportId_none hent2
  have h1 := observe_focus_first hent1 hfoc1 hflag1 hprevFoc hsave hprev hprevAir
  have hs1save : (observe s snapF1).hasSavedForFocus = true := by rw [h1]
  have hfp := focusEffect_preserves (observe s snapF1) snapF2
  have hre : restoreEffect (focusEffect (observe s snapF1) snapF2) snapF2 =
      focusEffect (observe s snapF1) snapF2 :=
    restoreEffect_quiet (by rw [hfp.1, h1]; exact hflag2)
  have hfs := focusEffect_saved_of_hasSaved (s := observe s snapF1) (t := snapF2) hs1save
  refine ⟨by rw [h1], by rw [h1], hs1save, ?_, ?_⟩
  · rw [observe, hre,
      (aircraftEffect_saved_of_none (s := airportEffect
        (focusEffect (observe s snapF1) snapF2) snapF2) hair2).1,
      (airportEffect_saved_of_none (s := focusEffect (observe s snapF1) snapF2) hport2).1,
      hfs.1, h1]
  · rw [observe, hre,
      (aircraftEffect_saved_of_none (s := airportEffect
        (focusEffect (observe s snapF1) snapF2) snapF2) hair2).2,
      (airportEffect_saved_of_none (s := focusEffect (observe s snapF1) snapF2) hport2).2,
      hfs.2.1, h1]

/-- A snapshot carrying a focus request at latitude 5, longitude 7. -/
def focusSnapB : Snapshot :=
  { selectedEntity := none
    focusLocation := some ⟨5, 7, none⟩
    restoreCameraFlag := 0
    aircraft := []
    airports := [] }

/-- Witness for the amended C10: a first focus request saves, a second one
(at different coordinates) does not save again. -/
theorem c10_first_focus_saves_per_restore_episode_witness :
    (baseState.hasSavedForFocus = false ∧ baseState.prevFocusLocation = none) ∧
    ((observe baseState focusSnap).savedCameraPosition = baseState.cameraPosition ∧
      (observe baseState focusSnap).savedCameraTarget = baseState.currentTarget ∧
      (observe baseState focusSnap).hasSavedForFocus = true ∧
      (observe (observe baseState focusSnap) focusSnapB).savedCameraPosition =
        baseState.cameraPosition ∧
      (observe (observe baseState focusSnap) focusSnapB).savedCameraTarget =
        baseState.currentTarget) :=
  ⟨⟨rfl, rfl⟩,
    c10_first_focus_saves_per_restore_episode baseState focusSnap focusSnapB
      ⟨10, 20, none⟩ ⟨5, 7, none⟩ rfl rfl rfl rfl rfl rfl rfl rfl rfl rfl⟩

/-! Evaluation of the geodetic math at latitude 0, longitude 0, heading 0. -/

theorem latLon_000 : latLonToVector3 0 0 0 = ⟨1, 0, 0⟩ := by
  simp only [latLonToVector3]
  rw [show ((90 : ℝ) - 0) * (Real.pi / 180) = Real.pi / 2 by ring,
      show ((0 : ℝ) + 180) * (Real.pi / 180) = Real.pi by ring,
      Real.sin_pi_div_two, Real.cos_pi_div_two, Real.cos_pi, Real.sin_pi]
  ext <;> norm_num

theorem normalize_100 : Vec3.normalize ⟨1, 0, 0⟩ = ⟨1, 0, 0⟩ :=
  Vec3.normalize_eq_self _ (by norm_num [Vec3.lengthSq])

theorem tfUp_00 : tfUp 0 0 = ⟨1, 0, 0⟩ := by
  rw [tfUp, latLon_000]
  exact normalize_100

theorem tfNorthRaw_00 : tfNorthRaw 0 0 = ⟨0, 1, 0⟩ := by
  simp only [tfNorthRaw]
  rw [show (0 : ℝ) * (Real.pi / 180) = 0 by ring, zero_add]
  rw [show Vec3.mk (Real.sin 0 * Real.cos Real.pi) (Real.cos 0)
        (-Real.sin 0 * Real.sin Real.pi) = ⟨0, 1, 0⟩ by
      rw [Real.sin_zero, Real.cos_zero, Real.cos_pi, Real.sin_pi]
      ext <;> norm_num]
  exact Vec3.normalize_eq_self _ (by norm_num [Vec3.lengthSq])

theorem tfNorthGS_00 : tfNorthGS 0 0 = ⟨0, 1, 0⟩ := by
  rw [tfNorthGS, tfNorthRaw_00, tfUp_00]
  rw [show (Vec3.dot ⟨0, 1, 0⟩ ⟨1, 0, 0⟩ : ℝ) = 0 by norm_num [Vec3.dot]]
  rw [show Vec3.sub ⟨0, 1, 0⟩ (Vec3.smul ⟨1, 0, 0⟩ 0) = ⟨0, 1, 0⟩ by
      ext <;> norm_num [Vec3.sub, Vec3.smul]]
  exact Vec3.normalize_eq_self _ (by norm_num [Vec3.lengthSq])

theorem tfEast_00 : tfEast 0 0 = ⟨0, 0, 1⟩ := by
  rw [tfEast, tfUp_00, tfNorthGS_00]
  rw [show Vec3.cross ⟨1, 0, 0⟩ ⟨0, 1, 0⟩ = ⟨0, 0, 1⟩ by
      ext <;> norm_num [Vec3.cross]]
  exact Vec3.normalize_eq_self _ (by norm_num [Vec3.lengthSq])

theorem tfNorth_00 : tfNorth 0 0 = ⟨0, 1, 0⟩ := by
  rw [tfNorth, tfEast_00, tfUp_00]
  rw [show Vec3.cross ⟨0, 0, 1⟩ ⟨1, 0, 0⟩ = ⟨0, 1, 0⟩ by
      ext <;> norm_num [Vec3.cross]]
  exact Vec3.normalize_eq_self _ (by norm_num [Vec3.lengthSq])

theorem forward_000 : getAircraftForwardVector 0 0 0 = ⟨0, 0, 1⟩ := by
  rw [getAircraftForwardVector, tfNorth_00, tfEast_00]
  rw [show ((0 : ℝ) + 90) * (Real.pi / 180) = Real.pi / 2 by ring,
      Real.cos_pi_div_two, Real.sin_pi_div_two]
  rw [show (Vec3.smul ⟨0, 1, 0⟩ 0).add (Vec3.smul ⟨0, 0, 1⟩ 1) = ⟨0, 0, 1⟩ by
      ext <;> norm_num [Vec3.add, Vec3.smul]]
  exact Vec3.normalize_eq_self _ (by norm_num [Vec3.lengthSq])

/-- The aircraft-framing camera position for the test aircraft at the origin
with heading 0 and speed 0: viewDistance is 0.08, so the camera sits at
(1.048, 0, -0.064). -/
theorem framing_eval : aircraftFramingPos testAircraft.position = ⟨1.048, 0, -0.064⟩ := by
  show aircraftFramingPos ⟨0, 0, 0, 0, 0⟩ = _
  simp only [aircraftFramingPos, aircraftViewDistance]
  rw [latLon_000, forward_000, normalize_100]
  rw [show ((0 : ℝ) / 60 / 60 * 25) * 0.017 * 1.5 + 0.05 = 0.05 by norm_num,
      min_eq_right (by norm_num : (0.05 : ℝ) ≤ 0.25),
      max_eq_left (by norm_num : (0.05 : ℝ) ≤ 0.08)]
  ext <;> norm_num [Vec3.add, Vec3.smul]

/-! A later focus request in the same episode: the dedupe check misses, the
first-focus flag is already set, so no save happens. -/

theorem focusEffect_again {s : CtrlState} {t : Snapshot} {f : FocusLocation} {p : ℝ × ℝ}
    (hf : t.focusLocation = some f) (hp : s.prevFocusLocation = some p)
    (hndup : ¬ (|p.1 - f.lat| < 0.0001 ∧ |p.2 - f.lon| < 0.0001))
    (hsel : t.selectedAircraftId = none) (hsave : s.hasSavedForFocus = true) :
    focusEffect s t =
      { s with
        prevFocusLocation := some (f.lat, f.lon)
        isAnimating := true
        isReturningToEarth := false
        animationProgress := 0
        startPosition := s.cameraPosition
        startTarget := s.currentTarget
        targetCameraPos :=
          (latLonToVector3 f.lat f.lon (f.alt.getD 0)).normalize.smul s.cameraPosition.length
        targetLookAt := Vec3.zero } := by
  simp only [focusEffect, hf, hp]
  rw [if_neg hndup]
  simp only [focusApply, beginTransition, hsel, hsave, Bool.true_eq_false, false_and,
    if_false, ne_eq, not_true_eq_false, ite_false]

theorem observe_focus_again {s : CtrlState} {t : Snapshot} {f : FocusLocation}
    {p : ℝ × ℝ}
    (hent : t.selectedEntity = none)
    (hfoc : t.focusLocation = some f)
    (hflag : t.restoreCameraFlag = s.prevRestoreFlag)
    (hprevFoc : s.prevFocusLocation = some p)
    (hndup : ¬ (|p.1 - f.lat| < 0.0001 ∧ |p.2 - f.lon| < 0.0001))
    (hsave : s.hasSavedForFocus = true)
    (hprev : s.prevSelectedId = none)
    (hprevAir : s.prevSelectedAirportId = none) :
    observe s t =
      { s with
        prevFocusLocation := some (f.lat, f.lon)
        isAnimating := true
        isReturningToEarth := false
        animationProgress := 0
        startPosition := s.cameraPosition
        startTarget := s.currentTarget
        targetCameraPos :=
          (latLonToVector3 f.lat f.lon (f.alt.getD 0)).normalize.smul s.cameraPosition.length
        targetLookAt := Vec3.zero
        prevSelectedAirportId := none
        prevSelectedId := none } := by
  have hair := Snapshot.selectedAircraftId_none hent
  have hport := Snapshot.selectedAirportId_none hent
  rw [observe, focusEffect_again hfoc hprevFoc hndup hair hsave]
  rw [restoreEffect_quiet (s := { s with
        prevFocusLocation := some (f.lat, f.lon), isAnimating := true,
        isReturningToEarth := false, animationProgress := 0,
        startPosition := s.cameraPosition, startTarget := s.currentTarget,
        targetCameraPos := (latLonToVector3 f.lat f.lon
          (f.alt.getD 0)).normalize.smul s.cameraPosition.length,
        targetLookAt := Vec3.zero })
      hflag]
  rw [airportEffect_noop (s := { s with
        prevFocusLocation := some (f.lat, f.lon), isAnimating := true,
        isReturningToEarth := false, animationProgress := 0,
        startPosition := s.cameraPosition, startTarget := s.currentTarget,
        targetCameraPos := (latLonToVector3 f.lat f.lon
          (f.alt.getD 0)).normalize.smul s.cameraPosition.length,
        targetLookAt := Vec3.zero })
      hport (Or.inl hprevAir)]
  rw [aircraftEffect_idle (s := { s with
        prevFocusLocation := some (f.lat, f.lon), isAnimating := true,
        isReturningToEarth := false, animationProgress := 0,
        startPosition := s.cameraPosition, startTarget := s.currentTarget,
        targetCameraPos := (latLonToVector3 f.lat f.lon
          (f.alt.getD 0)).normalize.smul s.cameraPosition.length,
        targetLookAt := Vec3.zero, prevSelectedAirportId := none })
      hair hprev]
  rw [hprev]

/-- A snapshot carrying a focus request at latitude 0, longitude 0. -/
def focus00Snap : Snapshot :=
  { selectedEntity := none
    focusLocation := some ⟨0, 0, none⟩
    restoreCameraFlag := 0
    aircraft := []
    airports := [] }

/-- A snapshot carrying a focus request at latitude 0, longitude 90. -/
def focus090Snap : Snapshot :=
  { selectedEntity := none
    focusLocation := some ⟨0, 90, none⟩
    restoreCameraFlag := 0
    aircraft := []
    airports := [] }

/-- Counterexample to claim C10 as stated: after focus at (0,0), selecting
aircraft A1, completing the animation, and fully deselecting, the next focus
request at (0,90) is the first focus request since the last full deselect
with nothing selected — but the engine does not save the current camera pose:
the saved slot still holds (0,0,2) while the camera sits at the aircraft
framing pose, because the first-focus flag is only reset by RestoreToken
observations, never by deselection. -/
theorem c10_counterexample :
    (observe (tick (observe (observe baseState focus00Snap) selectA1Snap) 1)
        quietSnap).prevSelectedId = none ∧
    (observe (observe (tick (observe (observe baseState focus00Snap) selectA1Snap) 1)
        quietSnap) focus090Snap).prevFocusLocation = some (0, 90) ∧
    (observe (observe (tick (observe (observe baseState focus00Snap) selectA1Snap) 1)
        quietSnap) focus090Snap).hasSavedForFocus = true ∧
    (observe (observe (tick (observe (observe baseState focus00Snap) selectA1Snap) 1)
        quietSnap) focus090Snap).savedCameraPosition = ⟨0, 0, 2⟩ ∧
    (observe (observe (tick (observe (observe baseState focus00Snap) selectA1Snap) 1)
        quietSnap) focus090Snap).cameraPosition =
      aircraftFramingPos testAircraft.position ∧
    aircraftFramingPos testAircraft.position = ⟨1.048, 0, -0.064⟩ ∧
    (observe (observe (tick (observe (observe baseState focus00Snap) selectA1Snap) 1)
        quietSnap) focus090Snap).savedCameraPosition ≠
      (observe (observe (tick (observe (observe baseState focus00Snap) selectA1Snap) 1)
        quietSnap) focus090Snap).cameraPosition := by
  have h1 := observe_focus_first (s := baseState) (t := focus00Snap)
    (f := ⟨0, 0, none⟩) rfl rfl rfl rfl rfl rfl rfl
  have h2 := observe_select_fresh (s := observe baseState focus00Snap)
    (t := selectA1Snap) (a := "A1") (c := testAircraft)
    rfl rfl (by first | (rw [h1]; rfl) | rw [h1]) (by first | (rw [h1]; rfl) | rw [h1]) (by first | (rw [h1]; rfl) | rw [h1]) rfl
  have h3 := tick_complete (s := observe (observe baseState focus00Snap) selectA1Snap)
    (δ := 1) (by first | (rw [h2]; rfl) | rw [h2])
    (by rw [h2]
        show (1 : ℝ) ≤ 0 + 1 * 1.2
        norm_num)
  have h4 := observe_deselect_saved
    (s := tick (observe (observe baseState focus00Snap) selectA1Snap) 1)
    (t := quietSnap) (a := "A1") rfl rfl
    (by first | (rw [h3, h2, h1]; rfl) | rw [h3, h2, h1]) (by first | (rw [h3, h2]; rfl) | rw [h3, h2]) (by first | (rw [h3, h2]; rfl) | rw [h3, h2])
    (by rw [h3, h2, h1]
        norm_num [baseState, Vec3.lengthSq])
  have h5 := observe_focus_again
    (s := observe (tick (observe (observe baseState focus00Snap) selectA1Snap) 1)
      quietSnap)
    (t := focus090Snap) (f := ⟨0, 90, none⟩) (p := (0, 0))
    rfl rfl (by first | (rw [h4, h3, h2, h1]; rfl) | rw [h4, h3, h2, h1]) (by first | (rw [h4, h3, h2, h1]; rfl) | rw [h4, h3, h2, h1])
    (by rintro ⟨-, habs⟩
        norm_num [abs_lt] at habs)
    (by first | (rw [h4, h3, h2, h1]; rfl) | rw [h4, h3, h2, h1]) (by first | (rw [h4]; rfl) | rw [h4]) (by first | (rw [h4]; rfl) | rw [h4])
  have e_saved :
      (observe (observe (tick (observe (observe baseState focus00Snap) selectA1Snap) 1)
        quietSnap) focus090Snap).savedCameraPosition = ⟨0, 0, 2⟩ := by
    first | (rw [h5, h4, h3, h2, h1]; rfl) | rw [h5, h4, h3, h2, h1]
  have e_cam :
      (observe (observe (tick (observe (observe baseState focus00Snap) selectA1Snap) 1)
        quietSnap) focus090Snap).cameraPosition =
        aircraftFramingPos testAircraft.position := by
    first | (rw [h5, h4, h3, h2]; rfl) | rw [h5, h4, h3, h2]
  refine ⟨by rw [h4], by first | (rw [h5]; rfl) | rw [h5],
    by first | (rw [h5, h4, h3, h2, h1]; rfl) | rw [h5, h4, h3, h2, h1], e_saved, e_cam,
    framing_eval, ?_⟩
  rw [e_saved, e_cam, framing_eval]
  simp only [ne_eq, Vec3.ext_iff, not_and]
  norm_num

/-! Claim C9: exact trigonometric facts about the tangent frame. -/

theorem Vec3.dot_comm (a b : Vec3) : a.dot b = b.dot a := by
  simp only [Vec3.dot]; ring

theorem latLon0_eq (lat lon : ℝ) : latLonToVector3 lat lon 0 =
    ⟨-(Real.cos (lat * (Real.pi / 180)) * Real.cos (lon * (Real.pi / 180) + Real.pi)),
      Real.sin (lat * (Real.pi / 180)),
      Real.cos (lat * (Real.pi / 180)) * Real.sin (lon * (Real.pi / 180) + Real.pi)⟩ := by
  simp only [latLonToVector3]
  rw [show (90 - lat) * (Real.pi / 180) = Real.pi / 2 - lat * (Real.pi / 180) by ring,
      show (lon + 180) * (Real.pi / 180) = lon * (Real.pi / 180) + Real.pi by ring,
      Real.sin_pi_div_two_sub, Real.cos_pi_div_two_sub]
  ext <;> dsimp <;> ring

theorem tfUp_eq (lat lon : ℝ) : tfUp lat lon =
    ⟨-(Real.cos (lat * (Real.pi / 180)) * Real.cos (lon * (Real.pi / 180) + Real.pi)),
      Real.sin (lat * (Real.pi / 180)),
      Real.cos (lat * (Real.pi / 180)) * Real.sin (lon * (Real.pi / 180) + Real.pi)⟩ := by
  rw [tfUp, latLon0_eq]
  refine Vec3.normalize_eq_self _ ?_
  simp only [Vec3.lengthSq]
  linear_combination
    (Real.cos (lat * (Real.pi / 180))) ^ 2 *
      Real.sin_sq_add_cos_sq (lon * (Real.pi / 180) + Real.pi) +
    Real.sin_sq_add_cos_sq (lat * (Real.pi / 180))

theorem tfUp_lengthSq (lat lon : ℝ) : (tfUp lat lon).lengthSq = 1 := by
  rw [tfUp_eq]
  simp only [Vec3.lengthSq]
  linear_combination
    (Real.cos (lat * (Real.pi / 180))) ^ 2 *
      Real.sin_sq_add_cos_sq (lon * (Real.pi / 180) + Real.pi) +
    Real.sin_sq_add_cos_sq (lat * (Real.pi / 180))

theorem tfNorthRaw_eq (lat lon : ℝ) : tfNorthRaw lat lon =
    ⟨Real.sin (lat * (Real.pi / 180)) * Real.cos (lon * (Real.pi / 180) + Real.pi),
      Real.cos (lat * (Real.pi / 180)),
      -(Real.sin (lat * (Real.pi / 180))) * Real.sin (lon * (Real.pi / 180) + Real.pi)⟩ := by
  rw [tfNorthRaw]
  refine Vec3.normalize_eq_self _ ?_
  simp only [Vec3.lengthSq]
  linear_combination
    (Real.sin (lat * (Real.pi / 180))) ^ 2 *
      Real.sin_sq_add_cos_sq (lon * (Real.pi / 180) + Real.pi) +
    Real.sin_sq_add_cos_sq (lat * (Real.pi / 180))

theorem tfNorthRaw_lengthSq (lat lon : ℝ) : (tfNorthRaw lat lon).lengthSq = 1 := by
  rw [tfNorthRaw_eq]
  simp only [Vec3.lengthSq]
  linear_combination
    (Real.sin (lat * (Real.pi / 180))) ^ 2 *
      Real.sin_sq_add_cos_sq (lon * (Real.pi / 180) + Real.pi) +
    Real.sin_sq_add_cos_sq (lat * (Real.pi / 180))

theorem tfNorthRaw_dot_up (lat lon : ℝ) :
    (tfNorthRaw lat lon).dot (tfUp lat lon) = 0 := by
  rw [tfNorthRaw_eq, tfUp_eq]
  simp only [Vec3.dot]
  linear_combination
    (-(Real.sin (lat * (Real.pi / 180)) * Real.cos (lat * (Real.pi / 180)))) *
      Real.sin_sq_add_cos_sq (lon * (Real.pi / 180) + Real.pi)

theorem tfNorthGS_eq (lat lon : ℝ) : tfNorthGS lat lon = tfNorthRaw lat lon := by
  rw [tfNorthGS, tfNorthRaw_dot_up]
  rw [show (tfNorthRaw lat lon).sub ((tfUp lat lon).smul 0) = tfNorthRaw lat lon by
    ext <;> simp [Vec3.sub, Vec3.smul]]
  exact Vec3.normalize_eq_self _ (tfNorthRaw_lengthSq lat lon)

theorem tfNorthGS_dot_up (lat lon : ℝ) :
    (tfNorthGS lat lon).dot (tfUp lat lon) = 0 := by
  rw [tfNorthGS_eq]; exact tfNorthRaw_dot_up lat lon

theorem tfNorthGS_lengthSq (lat lon : ℝ) : (tfNorthGS lat lon).lengthSq = 1 := by
  rw [tfNorthGS_eq]; exact tfNorthRaw_lengthSq lat lon

theorem tfEast_eq (lat lon : ℝ) :
    tfEast lat lon = (tfUp lat lon).cross (tfNorthGS lat lon) := by
  rw [tfEast]
  refine Vec3.normalize_eq_self _ ?_
  rw [Vec3.lengthSq_cross, tfUp_lengthSq, tfNorthGS_lengthSq,
    Vec3.dot_comm (tfUp lat lon) (tfNorthGS lat lon), tfNorthGS_dot_up]
  norm_num

theorem tfEast_lengthSq (lat lon : ℝ) : (tfEast lat lon).lengthSq = 1 := by
  rw [tfEast_eq, Vec3.lengthSq_cross, tfUp_lengthSq, tfNorthGS_lengthSq,
    Vec3.dot_comm (tfUp lat lon) (tfNorthGS lat lon), tfNorthGS_dot_up]
  norm_num

theorem tfEast_dot_up (lat lon : ℝ) : (tfEast lat lon).dot (tfUp lat lon) = 0 := by
  rw [tfEast_eq]
  exact Vec3.dot_cross_left _ _

theorem tfNorth_eq (lat lon : ℝ) :
    tfNorth lat lon = (tfEast lat lon).cross (tfUp lat lon) := by
  rw [tfNorth]
  refine Vec3.normalize_eq_self _ ?_
  rw [Vec3.lengthSq_cross, tfEast_lengthSq, tfUp_lengthSq, tfEast_dot_up]
  norm_num

theorem tfNorth_lengthSq (lat lon : ℝ) : (tfNorth lat lon).lengthSq = 1 := by
  rw [tfNorth_eq, Vec3.lengthSq_cross, tfEast_lengthSq, tfUp_lengthSq, tfEast_dot_up]
  norm_num

theorem tfNorth_dot_east (lat lon : ℝ) :
    (tfNorth lat lon).dot (tfEast lat lon) = 0 := by
  rw [tfNorth_eq]
  exact Vec3.dot_cross_left _ _

theorem tfNorth_dot_up (lat lon : ℝ) : (tfNorth lat lon).dot (tfUp lat lon) = 0 := by
  rw [tfNorth_eq]
  exact Vec3.dot_cross_right _ _

/-- Claim C9: for every latitude in [-90, 90] other than exactly the poles
and every longitude in [-180, 180], the tangent frame is orthonormal: the
pairwise dot products are below 1e-6 in absolute value (they are exactly 0
over the reals) and the three vectors have unit length. -/
theorem c9_tangent_frame_orthonormal (lat lon : ℝ)
    (hlat0 : -90 ≤ lat) (hlat1 : lat ≤ 90) (hlat2 : lat ≠ 90) (hlat3 : lat ≠ -90)
    (hlon0 : -180 ≤ lon) (hlon1 : lon ≤ 180) :
    |(tangentFrame lat lon).north.dot (tangentFrame lat lon).east| < 1e-6 ∧
    |(tangentFrame lat lon).north.dot (tangentFrame lat lon).up| < 1e-6 ∧
    |(tangentFrame lat lon).east.dot (tangentFrame lat lon).up| < 1e-6 ∧
    (tangentFrame lat lon).north.length = 1 ∧
    (tangentFrame lat lon).east.length = 1 ∧
    (tangentFrame lat lon).up.length = 1 := by
  refine ⟨?_, ?_, ?_, ?_, ?_, ?_⟩
  · rw [show (tangentFrame lat lon).north = tfNorth lat lon from rfl,
      show (tangentFrame lat lon).east = tfEast lat lon from rfl,
      tfNorth_dot_east, abs_zero]
    norm_num
  · rw [show (tangentFrame lat lon).north = tfNorth lat lon from rfl,
      show (tangentFrame lat lon).up = tfUp lat lon from rfl,
      tfNorth_dot_up, abs_zero]
    norm_num
  · rw [show (tangentFrame lat lon).east = tfEast lat lon from rfl,
      show (tangentFrame lat lon).up = tfUp lat lon from rfl,
      tfEast_dot_up, abs_zero]
    norm_num
  · rw [show (tangentFrame lat lon).north = tfNorth lat lon from rfl,
      Vec3.length, tfNorth_lengthSq, Real.sqrt_one]
  · rw [show (tangentFrame lat lon).east = tfEast lat lon from rfl,
      Vec3.length, tfEast_lengthSq, Real.sqrt_one]
  · rw [show (tangentFrame lat lon).up = tfUp lat lon from rfl,
      Vec3.length, tfUp_lengthSq, Real.sqrt_one]

/-- Witness for C9 at latitude 10, longitude 20. -/
theorem c9_tangent_frame_orthonormal_witness :
    ((-90 : ℝ) ≤ 10 ∧ (10 : ℝ) ≠ 90 ∧ (10 : ℝ) ≠ -90 ∧ (-180 : ℝ) ≤ 20) ∧
    (|(tangentFrame 10 20).north.dot (tangentFrame 10 20).east| < 1e-6 ∧
      |(tangentFrame 10 20).north.dot (tangentFrame 10 20).up| < 1e-6 ∧
      |(tangentFrame 10 20).east.dot (tangentFrame 10 20).up| < 1e-6 ∧
      (tangentFrame 10 20).north.length = 1 ∧
      (tangentFrame 10 20).east.length = 1 ∧
      (tangentFrame 10 20).up.length = 1) :=
  ⟨⟨by norm_num, by norm_num, by norm_num, by norm_num⟩,
    c9_tangent_frame_orthonormal 10 20 (by norm_num) (by norm_num) (by norm_num)
      (by norm_num) (by norm_num) (by norm_num)⟩

end

end Airspace
